import Mathlib

/-!
Verification development for the bounded multi-level contact-extraction
crawler of the talent-seeker repository.  The Lean definitions below are a
shallow embedding of `src/services/contact_extractor.py` and of the
configuration dataclass in `src/config/settings.py`.

Modelling conventions:
* Python `str` values are Lean `String`s, and the Python string methods used
  by the source (`strip`, `lower`, `split` on a one-character separator,
  `replace`, `startswith`, slicing, `in`) are re-implemented below over
  `List Char` by structural recursion, so that every definition evaluates
  inside the kernel.
* Python `set` and `dict` values are lists: sets are lists kept
  duplicate-free by a membership-guarded insert, dicts are association lists
  updated in place (existing key keeps its position, new key is appended),
  matching CPython insertion-order semantics.
* The external effects (the Jina content fetcher, the OpenAI chat call, and
  the `re` regex engine used by the fallback extractor) are fields of an
  `Env` record: each is a mathematical function describing the answers the
  outside world gives.  Exceptions of the chat call are an `Option`.
* Python floats in the scorer are modelled as exact rationals.
* A ghost `trace` field records every fetch attempt `(url, depth)` the crawl
  engine makes, in order; it changes no control flow and exists only so that
  theorems can speak about which URLs are fetched at which depth.
-/

/-! ### Python string primitives -/

/-- Substring test on character lists: does `pat` occur inside the list? -/
def listContainsSub (pat : List Char) : List Char → Bool
  | [] => pat.isEmpty
  | c :: rest => pat.isPrefixOf (c :: rest) || listContainsSub pat rest

/-- Python `pat in s` (substring containment). -/
def strContains (s pat : String) : Bool := listContainsSub pat.data s.data

/-- Python `s.lower()`. -/
def pyLower (s : String) : String := String.mk (s.data.map Char.toLower)

/-- Python `s.strip()` (whitespace trimmed from both ends). -/
def pyStrip (s : String) : String :=
  String.mk (((s.data.dropWhile Char.isWhitespace).reverse.dropWhile Char.isWhitespace).reverse)

/-- Worker for `pySplit`. -/
def splitCharAux (sep : Char) : List Char → List Char → List String
  | [], acc => [String.mk acc.reverse]
  | c :: rest, acc =>
    if c == sep then String.mk acc.reverse :: splitCharAux sep rest []
    else splitCharAux sep rest (c :: acc)

/-- Python `s.split(sep)` for a one-character separator (the only form the
source uses: `split('\n')`, `split(',')`, `split('@')`). -/
def pySplit (s : String) (sep : Char) : List String := splitCharAux sep s.data []

/-- Worker for `pyReplace`: replaces every non-overlapping occurrence of
`pat`, scanning left to right; the `skip` counter walks over the matched
characters so the recursion stays structural. -/
def replaceGo (pat repl : List Char) : Nat → List Char → List Char
  | _, [] => []
  | 0, c :: rest =>
    if pat.isPrefixOf (c :: rest) then repl ++ replaceGo pat repl (pat.length - 1) rest
    else c :: replaceGo pat repl 0 rest
  | skip+1, _ :: rest => replaceGo pat repl skip rest

/-- Python `s.replace(pat, repl)` for a non-empty `pat`. -/
def pyReplace (s pat repl : String) : String := String.mk (replaceGo pat.data repl.data 0 s.data)

/-- Python `s.startswith(pre)`. -/
def pyStartswith (s pre : String) : Bool := pre.data.isPrefixOf s.data

/-- Python `len(s)` (code points). -/
def pyLen (s : String) : Nat := s.data.length

/-- Python `s[:n]` (slicing by code points). -/
def pyTake (s : String) (n : Nat) : String := String.mk (s.data.take n)

/-- Python truthiness of an `Optional[str]`: `None` and the empty string are
falsy. -/
def optTruthy : Option String → Bool
  | none => false
  | some s => s ≠ ""

/-! ### Configuration (`src/config/settings.py`, `ContactExtractionConfig`) -/

/-- The `ContactExtractionConfig` dataclass.  `max_links_per_level` is the
depth-indexed link budget dict. -/
structure ContactExtractionConfig where
  max_drilling_depth : Nat
  timeout : Nat
  max_links_per_level : List (Nat × Nat)
  enable_fake_email_filtering : Bool

/-- The shipped defaults: depth 2, timeout 10, budgets `{0: 4, 1: 3, 2: 2}`,
filtering flag on. -/
def default_config : ContactExtractionConfig :=
  { max_drilling_depth := 2
    timeout := 10
    max_links_per_level := [(0, 4), (1, 3), (2, 2)]
    enable_fake_email_filtering := true }

/-- The attribute names the `ContactExtractionConfig` dataclass actually
defines (its four fields).  Python attribute access on any other name raises
`AttributeError`. -/
def config_field_names : List String :=
  ["max_drilling_depth", "timeout", "max_links_per_level", "enable_fake_email_filtering"]

/-- Whether `getattr(config, name)` succeeds. -/
def hasConfigAttr (name : String) : Bool := config_field_names.contains name

/-! ### Data model (`ContactInfo`) -/

/-- The `ContactInfo` dataclass: the mutable accumulator of one crawl. -/
structure ContactInfo where
  emails : List String
  social_links : List (String × String)
  website : Option String
  phone : Option String
  linkedin : Option String
  twitter : Option String
  personal_site : Option String
  contact_score : ℚ

/-- A freshly constructed `ContactInfo()`. -/
def empty_contact : ContactInfo :=
  { emails := [], social_links := [], website := none, phone := none,
    linkedin := none, twitter := none, personal_site := none, contact_score := 0 }

/-- Python `set.add`: insert the email if it is not already present. -/
def addEmail (ci : ContactInfo) (e : String) : ContactInfo :=
  if e ∈ ci.emails then ci else { ci with emails := ci.emails ++ [e] }

/-- Python `dict[k] = v` on an insertion-ordered dict: an existing key keeps
its position and gets the new value, a new key is appended at the end. -/
def dictSet : List (String × String) → String → String → List (String × String)
  | [], k, v => [(k, v)]
  | (k', v') :: rest, k, v =>
    if k' = k then (k, v) :: rest else (k', v') :: dictSet rest k v

/-! ### Validation helpers -/

/-- `ContactExtractor.FAKE_EMAIL_PATTERNS`. -/
def FAKE_EMAIL_PATTERNS : List String :=
  ["git@github.com", "noreply@github.com", "example@", "test@", "demo@",
   "user@example", "your-email@", "email@example.com", "sample@",
   "no-reply@", "donotreply@", "support@github.com"]

/-- `ContactExtractor._is_valid_email`. -/
def is_valid_email (email : String) : Bool :=
  if email = "" ∨ pyLen email < 5 then false
  else
    let email_lower := pyLower email
    if FAKE_EMAIL_PATTERNS.any (fun pattern => strContains email_lower pattern) then false
    else if ¬ strContains email "@" ∨ ¬ strContains ((pySplit email '@').getD 1 "") "." then false
    else true

/-- Fold of the per-email validation loop shared by both extraction paths:
keep a candidate only if `_is_valid_email` accepts it, and `set.add` it.  (The
LLM-response path strips each candidate before this loop; the regex path
feeds its matches in unchanged.) -/
def add_valid_emails (ci : ContactInfo) (es : List String) : ContactInfo :=
  es.foldl (fun c e => if is_valid_email e then addEmail c e else c) ci

/-- `ContactExtractor._is_personal_site`. -/
def personal_indicators : List String :=
  ["github.io", "gitlab.io", "netlify.app", "vercel.app",
   "personal", "portfolio", "blog", "me.", "my.", ".me"]

/-- `ContactExtractor._is_personal_site`. -/
def is_personal_site (url : String) : Bool :=
  personal_indicators.any (fun indicator => strContains (pyLower url) indicator)

/-- The skip patterns of `_is_safe_drill_down_link`. -/
def skip_patterns : List String :=
  ["/topics/", "/trending/", "/hashtag/", "/search/",
   "github.com/topics", "github.com/trending",
   "linkedin.com/feed", "twitter.com/search"]

/-- The good patterns of `_is_safe_drill_down_link`. -/
def good_patterns : List String :=
  ["/contact", "/about", "/cv", "/resume", "/portfolio",
   "contact.", "about.", ".me", "personal", "bio"]

/-- `ContactExtractor._is_safe_drill_down_link`. -/
def is_safe_drill_down_link (url parent_url : String) : Bool :=
  let url_lower := pyLower url
  if skip_patterns.any (fun pattern => strContains url_lower pattern) then false
  else good_patterns.any (fun pattern => strContains url_lower pattern) || url != parent_url

/-! ### LLM response parsing (`_parse_llm_response`) -/

/-- The per-candidate filter of the `NEXT_LINKS:` loop: keep a candidate link
only if it starts with `http` and passes `_is_safe_drill_down_link`. -/
def filter_candidate_links (candidates : List String) (source_url : String) : List String :=
  candidates.filter (fun link => pyStartswith link "http" && is_safe_drill_down_link link source_url)

/-- One iteration of the line loop of `_parse_llm_response`.  The accumulator
carries the contact info being mutated and the `next_links` list collected so
far. -/
def parse_line (depth : Nat) (source_url : String) (acc : ContactInfo × List String)
    (line0 : String) : ContactInfo × List String :=
  let ci := acc.1
  let next_links := acc.2
  let line := pyStrip line0
  if pyStartswith line "EMAILS:" then
    let emails := pyStrip (pyReplace line "EMAILS:" "")
    if emails ≠ "" ∧ emails ≠ "None" then
      (add_valid_emails ci ((pySplit emails ',').map pyStrip), next_links)
    else (ci, next_links)
  else if pyStartswith line "LINKEDIN:" then
    let linkedin := pyStrip (pyReplace line "LINKEDIN:" "")
    if linkedin ≠ "" ∧ pyStartswith linkedin "http" then
      ({ ci with linkedin := some linkedin,
                 social_links := dictSet ci.social_links "linkedin" linkedin }, next_links)
    else (ci, next_links)
  else if pyStartswith line "TWITTER:" then
    let twitter := pyStrip (pyReplace line "TWITTER:" "")
    if twitter ≠ "" ∧ pyStartswith twitter "http" then
      ({ ci with twitter := some twitter,
                 social_links := dictSet ci.social_links "twitter" twitter }, next_links)
    else (ci, next_links)
  else if pyStartswith line "PHONE:" then
    let phone := pyStrip (pyReplace line "PHONE:" "")
    if phone ≠ "" ∧ phone ≠ "None" then
      ({ ci with phone := some phone }, next_links)
    else (ci, next_links)
  else if pyStartswith line "WEBSITE:" then
    let website := pyStrip (pyReplace line "WEBSITE:" "")
    if website ≠ "" ∧ pyStartswith website "http" then
      let ci := if optTruthy ci.website then ci else { ci with website := some website }
      let ci := if is_personal_site website then { ci with personal_site := some website } else ci
      (ci, next_links)
    else (ci, next_links)
  else if pyStartswith line "NEXT_LINKS:" ∧ depth < 2 then
    let links := pyStrip (pyReplace line "NEXT_LINKS:" "")
    if links ≠ "" ∧ links ≠ "None" then
      (ci, next_links ++ filter_candidate_links ((pySplit links ',').map pyStrip) source_url)
    else (ci, next_links)
  else (ci, next_links)

/-- `ContactExtractor._parse_llm_response`, as a pure function: it returns the
updated contact info together with the (at most `max_links_per_level.get(depth
+ 1, 2)`) links the engine will drill into next.  The recursive
`_scrape_and_extract` calls on those links are performed by the crawl engine
below. -/
def parse_llm_response (cfg : ContactExtractionConfig) (response : String) (depth : Nat)
    (source_url : String) (ci : ContactInfo) : ContactInfo × List String :=
  let r := (pySplit response '\n').foldl (parse_line depth source_url) (ci, [])
  let max_links := (List.lookup (depth + 1) cfg.max_links_per_level).getD 2
  (r.1, r.2.take max_links)

/-! ### External world -/

/-- The external collaborators of one crawl.  `fetch` is the text the Jina
reader returns for a URL (`none` = failure or no token), `chat` is the raw
OpenAI chat-completion answer for a prompt (`none` = the API call raised),
`email_matches` and `social_matches` are the match lists of the fixed `re`
patterns of the fallback extractor on a page text. -/
structure Env where
  openai_client : Bool
  fetch : String → Option String
  chat : String → Option String
  email_matches : String → List String
  social_matches : String → String → List String

/-! ### Regex fallback extraction (`_regex_extract`) -/

/-- One iteration of the social-pattern loop of `_regex_extract`: if the
platform regex matched, rebuild the canonical profile URL from the first
match, store it in `social_links`, and mirror it into the `linkedin` /
`twitter` convenience fields. -/
def regex_social_step (env : Env) (content platform : String) (ci : ContactInfo) : ContactInfo :=
  match env.social_matches platform content with
  | [] => ci
  | m :: _ =>
    let url := "https://" ++ platform ++ ".com/" ++ (if platform = "linkedin" then "in/" else "") ++ m
    let ci := { ci with social_links := dictSet ci.social_links platform url }
    if platform = "linkedin" then { ci with linkedin := some url }
    else if platform = "twitter" then { ci with twitter := some url }
    else ci

/-- `ContactExtractor._regex_extract`: validated emails from the email
pattern, then the three social patterns in dict order. -/
def regex_extract (env : Env) (content : String) (ci : ContactInfo) : ContactInfo :=
  let ci := add_valid_emails ci (env.email_matches content)
  let ci := regex_social_step env content "linkedin" ci
  let ci := regex_social_step env content "twitter" ci
  regex_social_step env content "github" ci

/-! ### Prompts -/

/-- `_create_level_0_prompt`. -/
def create_level_0_prompt (content source_url : String) : String :=
  "Analyze this web content for contact information AND identify promising links for deeper analysis.\n\nSource URL: "
    ++ source_url ++ "\nContent: " ++ content ++
    "\n\nPlease extract:\n1. Email addresses (ignore fake/example emails)\n2. Social media profiles (LinkedIn, Twitter, etc.)\n3. Phone numbers\n4. Personal websites\n\nAlso identify up to 4 most promising links for further exploration:\n- Contact/About pages\n- Personal portfolio sites  \n- CV/Resume pages\n- Professional profiles\n\nRespond in this format:\nEMAILS: email1@example.com, email2@example.com\nLINKEDIN: https://linkedin.com/in/profile\nTWITTER: https://twitter.com/username\nPHONE: +1234567890\nWEBSITE: https://personal-site.com\nNEXT_LINKS: https://site.com/contact, https://site.com/about"

/-- `_create_level_1_prompt`. -/
def create_level_1_prompt (content source_url : String) : String :=
  "Analyze this contact-focused page for direct contact information.\n\nSource URL: "
    ++ source_url ++ "\nContent: " ++ content ++
    "\n\nFocus on extracting:\n1. Direct contact emails\n2. Professional social profiles\n3. Contact forms or methods\n4. Up to 3 additional contact-relevant links\n\nEMAILS: \nLINKEDIN: \nTWITTER: \nPHONE: \nNEXT_LINKS: "

/-- `_create_level_2_prompt`. -/
def create_level_2_prompt (content source_url : String) : String :=
  "Extract final contact information from this page. No need to identify more links.\n\nSource URL: "
    ++ source_url ++ "\nContent: " ++ content ++
    "\n\nExtract:\nEMAILS: \nLINKEDIN: \nTWITTER: \nPHONE: "

/-! ### Oracle dispatch -/

/-- The content truncation at the top of `_intelligent_extract`: text longer
than 4000 characters is cut and an ellipsis appended. -/
def truncate_content (content : String) : String :=
  if pyLen content > 4000 then pyTake content 4000 ++ "..." else content

/-- The depth dispatch of `_intelligent_extract`: level 0, level 1, or the
terminal prompt. -/
def prompt_for_depth (content source_url : String) (depth : Nat) : String :=
  if depth = 0 then create_level_0_prompt content source_url
  else if depth = 1 then create_level_1_prompt content source_url
  else create_level_2_prompt content source_url

/-- `ContactExtractor._intelligent_extract`, as a pure function returning the
updated info and the links to drill: truncate the content at 4000 characters,
build the depth-specific prompt, call the chat service; on success parse the
response, on failure (`none`) fall back to `_regex_extract` on that single
page with no follow-up links. -/
def intelligent_extract (env : Env) (cfg : ContactExtractionConfig) (content source_url : String)
    (depth : Nat) (ci : ContactInfo) : ContactInfo × List String :=
  let content := truncate_content content
  let prompt := prompt_for_depth content source_url depth
  match env.chat prompt with
  | some result => parse_llm_response cfg result depth source_url ci
  | none => (regex_extract env content ci, [])

/-- `ContactExtractor._extract_from_content`: use the intelligent path when
the OpenAI client exists and the page has more than 100 characters, otherwise
the deterministic regex extractor (which proposes no links). -/
def extract_from_content (env : Env) (cfg : ContactExtractionConfig) (content source_url : String)
    (depth : Nat) (ci : ContactInfo) : ContactInfo × List String :=
  if env.openai_client = true ∧ pyLen content > 100 then
    intelligent_extract env cfg content source_url depth ci
  else (regex_extract env content ci, [])

/-! ### Crawl engine -/

/-- The state one crawl threads through `_scrape_and_extract`: the shared
accumulator, the crawl-wide visited set (a duplicate-free list), and the
ghost trace of fetch attempts `(url, depth)`. -/
structure CrawlState where
  info : ContactInfo
  visited : List String
  trace : List (String × Nat)

/-- `ContactExtractor._scrape_and_extract`.  The `fuel` argument only makes
the recursion structural; the crawl engine below supplies
`max_drilling_depth + 1`, which the depth guard never exhausts.  Steps: depth
and loop protection, mark visited, fetch (recorded in the ghost trace),
extract, and recurse on the returned links at `depth + 1`. -/
def scrape_and_extract (env : Env) (cfg : ContactExtractionConfig) :
    Nat → String → Nat → CrawlState → CrawlState
  | 0, _, _, st => st
  | fuel + 1, url, depth, st =>
    if cfg.max_drilling_depth ≤ depth ∨ url ∈ st.visited then st
    else
      let st1 : CrawlState :=
        { info := st.info, visited := st.visited ++ [url], trace := st.trace ++ [(url, depth)] }
      match env.fetch url with
      | none => st1
      | some content =>
        let er := extract_from_content env cfg content url depth st1.info
        (er.2).foldl (fun s l => scrape_and_extract env cfg fuel l (depth + 1) s)
          { info := er.1, visited := st1.visited, trace := st1.trace }

/-- The loop drilling into the selected next-level links (the tail of
`_parse_llm_response`): scrape each link at `depth + 1`, threading the state
left to right. -/
def drill_links (env : Env) (cfg : ContactExtractionConfig) (fuel depth : Nat)
    (links : List String) (st : CrawlState) : CrawlState :=
  links.foldl (fun s l => scrape_and_extract env cfg fuel l (depth + 1) s) st

/-- The loop body of `_perform_multi_level_extraction`: a seed URL not yet
visited is scraped at depth 0 (with enough fuel that the depth guard, not the
fuel, stops the recursion). -/
def seed_step (env : Env) (cfg : ContactExtractionConfig) (st : CrawlState) (url : String) :
    CrawlState :=
  if url ∈ st.visited then st
  else scrape_and_extract env cfg (cfg.max_drilling_depth + 1) url 0 st

/-- `ContactExtractor._perform_multi_level_extraction`: a fresh visited set,
then each seed URL not yet visited is scraped at depth 0. -/
def perform_multi_level_extraction (env : Env) (cfg : ContactExtractionConfig)
    (urls : List String) (ci : ContactInfo) : CrawlState :=
  urls.foldl (seed_step env cfg) { info := ci, visited := [], trace := [] }

/-! ### The content fetcher (`_scrape_url`) -/

/-- The outside world of `_scrape_url`: `get url` is the answer of
`requests.get` on the Jina reader endpoint — `none` if the request raised,
otherwise the status code and body. -/
structure HttpEnv where
  get : String → Option (Nat × String)

/-- `ContactExtractor._scrape_url`.  If no Jina token is configured, return
`None`.  Otherwise the guarded block first evaluates
`self.config.request_timeout`; the active `ContactExtractionConfig` has no
attribute of that name (its field is `timeout`), so the access raises
`AttributeError`, the `except` handler catches it and returns `None`.  Only
if that attribute existed would the HTTP request be issued. -/
def scrape_url (henv : HttpEnv) (jina_token : Option String) (url : String) : Option String :=
  if ¬ optTruthy jina_token then none
  else if hasConfigAttr "request_timeout" then
    match henv.get url with
    | none => none
    | some (status_code, text) => if status_code = 200 then some text else none
  else none

/-! ### Scorer (`_calculate_contact_score`) -/

/-- `ContactExtractor._calculate_contact_score`, over exact rationals. -/
def calculate_contact_score (ci : ContactInfo) : ℚ :=
  let score : ℚ := 0
  let score :=
    if ci.emails ≠ [] then
      (if ci.emails.length > 1 then score + 0.4 + 0.1 else score + 0.4)
    else score
  let social_weight : ℚ := 0.3 / 3
  let score := if ci.linkedin.isSome then score + social_weight else score
  let score := if ci.twitter.isSome then score + social_weight else score
  let score := if ci.social_links.length > 2 then score + social_weight else score
  let score := if ci.personal_site.isSome then score + 0.2 else score
  let score := if ci.phone.isSome then score + 0.1 else score
  min score 1

/-! ### Derived bounds and invariants used by the theorems -/

/-- Worker for `branchBound`, structurally recursive on the remaining depth
budget. -/
def branchBoundGo (cfg : ContactExtractionConfig) : Nat → Nat → Nat
  | 0, _ => 1
  | fuel + 1, depth =>
    if depth + 1 < cfg.max_drilling_depth ∧ depth < 2 then
      1 + ((List.lookup (depth + 1) cfg.max_links_per_level).getD 2) * branchBoundGo cfg fuel (depth + 1)
    else 1

/-- Upper bound on how many URLs a single `_scrape_and_extract` call at the
given depth can add to the visited set: the page itself plus, when another
level is allowed (and links are still collected, which happens only below
depth 2), the per-level budget times the bound one level deeper. -/
def branchBound (cfg : ContactExtractionConfig) (depth : Nat) : Nat :=
  branchBoundGo cfg (cfg.max_drilling_depth - depth) depth

/-- Monotonicity of the accumulator under the merge steps of a crawl: emails
are only added, a truthy website is never replaced, the other singleton
fields are never cleared, and `social_links` keys are never removed. -/
def InfoMono (a b : ContactInfo) : Prop :=
  (∀ e ∈ a.emails, e ∈ b.emails) ∧
  (optTruthy a.website = true → b.website = a.website) ∧
  (a.linkedin.isSome = true → b.linkedin.isSome = true) ∧
  (a.twitter.isSome = true → b.twitter.isSome = true) ∧
  (a.phone.isSome = true → b.phone.isSome = true) ∧
  (a.personal_site.isSome = true → b.personal_site.isSome = true) ∧
  (∀ k : String, (List.lookup k a.social_links).isSome = true →
    (List.lookup k b.social_links).isSome = true)

/-- Everything one `_scrape_and_extract` call at `(url, depth)` guarantees
about how it turns the state `st` into the state `r`. -/
def StepOK (cfg : ContactExtractionConfig) (url : String) (depth : Nat) (st r : CrawlState) : Prop :=
  InfoMono st.info r.info ∧
  ∃ dv dt, r.visited = st.visited ++ dv ∧ r.trace = st.trace ++ dt ∧
    dt.map Prod.fst = dv ∧
    dv.Nodup ∧ (∀ u ∈ dv, u ∉ st.visited) ∧
    (dt = [] ∨ ∃ rest, dt = (url, depth) :: rest ∧ ∀ q ∈ rest, depth + 1 ≤ q.2) ∧
    dv.length ≤ (if depth < cfg.max_drilling_depth then branchBound cfg depth else 0)

/-- Everything the drilling loop over a list of candidate links at parent
depth `depth` guarantees: every new fetch happens at depth ≥ `depth + 1`, at
most one fetch per candidate happens at depth `depth + 1` exactly, each such
fetch is of a candidate that was not already visited, and the visited set
grows by at most one branch bound per candidate. -/
def DrillOK (cfg : ContactExtractionConfig) (links : List String) (depth : Nat)
    (st r : CrawlState) : Prop :=
  InfoMono st.info r.info ∧
  ∃ dv dt, r.visited = st.visited ++ dv ∧ r.trace = st.trace ++ dt ∧
    dt.map Prod.fst = dv ∧
    dv.Nodup ∧ (∀ u ∈ dv, u ∉ st.visited) ∧
    (∀ q ∈ dt, depth + 1 ≤ q.2) ∧
    (dt.filter (fun p => p.2 = depth + 1)).length ≤ links.length ∧
    (∀ p ∈ dt, p.2 = depth + 1 → p.1 ∈ links ∧ p.1 ∉ st.visited) ∧
    dv.length ≤ links.length * (if depth + 1 < cfg.max_drilling_depth then branchBound cfg (depth + 1) else 0)

/-! ### Concrete inputs used by witnesses and counterexamples -/

/-- A page body longer than 100 characters, so the crawl engine takes the
intelligent-oracle path. -/
def scenario_content : String :=
  "This is the home page of a software developer. It describes projects, talks, and a way to reach the author by email."

/-- Level-0 oracle answer proposing five candidate links. -/
def scenario_response_0 : String :=
  "NEXT_LINKS: https://ex1.com/a, https://ex2.com/b, https://ex3.com/c, https://ex4.com/d, https://ex5.com/e"

/-- Deeper-level oracle answer proposing nothing. -/
def scenario_response_1 : String := "EMAILS: None"

/-- External world of the drilling scenario: every fetch succeeds with the
same long page, the chat service answers the level-0 prompt with five links
and every other prompt with nothing. -/
def scenario_env : Env :=
  { openai_client := true
    fetch := fun _ => some scenario_content
    chat := fun p =>
      if pyStartswith p "Analyze this web content" then some scenario_response_0
      else some scenario_response_1
    email_matches := fun _ => []
    social_matches := fun _ _ => [] }

/-- An external world whose fetch always fails (also reachable by wiring the
shipped `_scrape_url` in as the fetcher). -/
def dead_fetch_env : Env :=
  { openai_client := true
    fetch := fun _ => none
    chat := fun _ => none
    email_matches := fun _ => []
    social_matches := fun _ _ => [] }

/-- An external world whose chat service always raises. -/
def dead_chat_env : Env :=
  { openai_client := true
    fetch := fun _ => some scenario_content
    chat := fun _ => none
    email_matches := fun _ => []
    social_matches := fun _ _ => [] }

/-- The crawl environment obtained by wiring the shipped `_scrape_url` in as
the content fetcher, with a configured Jina token and an HTTP layer that
would answer 200 — the fetch still fails on the `request_timeout` attribute. -/
def shipped_fetch_env : Env :=
  { openai_client := true
    fetch := fun u =>
      scrape_url { get := fun _ => some (200, "page body") } (some "jina-abcdefgh") u
    chat := fun _ => none
    email_matches := fun _ => []
    social_matches := fun _ _ => [] }

/-- An external world whose email regex only ever finds the two placeholder
GitHub addresses. -/
def fake_only_env : Env :=
  { openai_client := false
    fetch := fun _ => none
    chat := fun _ => none
    email_matches := fun _ => ["git@github.com", "noreply@github.com"]
    social_matches := fun _ _ => [] }

/-- Nine distinct seed URLs. -/
def nine_seeds : List String :=
  ["https://u1.com", "https://u2.com", "https://u3.com", "https://u4.com", "https://u5.com",
   "https://u6.com", "https://u7.com", "https://u8.com", "https://u9.com"]

/-! ## Lemmas about the primitive accumulator operations -/

theorem addEmail_social_links (ci : ContactInfo) (e : String) :
    (addEmail ci e).social_links = ci.social_links := by
  unfold addEmail; split <;> rfl

theorem addEmail_website (ci : ContactInfo) (e : String) :
    (addEmail ci e).website = ci.website := by
  unfold addEmail; split <;> rfl

theorem addEmail_phone (ci : ContactInfo) (e : String) :
    (addEmail ci e).phone = ci.phone := by
  unfold addEmail; split <;> rfl

theorem addEmail_linkedin (ci : ContactInfo) (e : String) :
    (addEmail ci e).linkedin = ci.linkedin := by
  unfold addEmail; split <;> rfl

theorem addEmail_twitter (ci : ContactInfo) (e : String) :
    (addEmail ci e).twitter = ci.twitter := by
  unfold addEmail; split <;> rfl

theorem addEmail_personal_site (ci : ContactInfo) (e : String) :
    (addEmail ci e).personal_site = ci.personal_site := by
  unfold addEmail; split <;> rfl

theorem mem_addEmail (ci : ContactInfo) (e e' : String) :
    e' ∈ (addEmail ci e).emails ↔ e' ∈ ci.emails ∨ e' = e := by
  unfold addEmail
  split
  · rename_i h
    constructor
    · exact Or.inl
    · rintro (h' | rfl)
      · exact h'
      · exact h
  · simp

theorem mem_add_valid_emails (es : List String) (ci : ContactInfo) (e : String) :
    e ∈ (add_valid_emails ci es).emails ↔
      e ∈ ci.emails ∨ (e ∈ es ∧ is_valid_email e = true) := by
  induction es generalizing ci with
  | nil => simp [add_valid_emails]
  | cons x xs ih =>
    show e ∈ (add_valid_emails (if is_valid_email x then addEmail ci x else ci) xs).emails ↔ _
    rw [ih]
    by_cases hx : is_valid_email x = true
    · rw [if_pos hx, mem_addEmail]
      constructor
      · rintro ((h | h) | ⟨h1, h2⟩)
        · exact Or.inl h
        · exact Or.inr ⟨List.mem_cons.mpr (Or.inl h), by rw [h]; exact hx⟩
        · exact Or.inr ⟨List.mem_cons.mpr (Or.inr h1), h2⟩
      · rintro (h | ⟨hm, hv⟩)
        · exact Or.inl (Or.inl h)
        · rcases List.mem_cons.mp hm with h' | h'
          · exact Or.inl (Or.inr h')
          · exact Or.inr ⟨h', hv⟩
    · rw [if_neg hx]
      constructor
      · rintro (h | ⟨h1, h2⟩)
        · exact Or.inl h
        · exact Or.inr ⟨List.mem_cons.mpr (Or.inr h1), h2⟩
      · rintro (h | ⟨hm, hv⟩)
        · exact Or.inl h
        · rcases List.mem_cons.mp hm with h' | h'
          · exact absurd (by rw [← h']; exact hv) hx
          · exact Or.inr ⟨h', hv⟩

theorem add_valid_emails_social_links (es : List String) (ci : ContactInfo) :
    (add_valid_emails ci es).social_links = ci.social_links := by
  induction es generalizing ci with
  | nil => rfl
  | cons x xs ih =>
    show (add_valid_emails (if is_valid_email x then addEmail ci x else ci) xs).social_links = _
    rw [ih]; split <;> simp [addEmail_social_links]

theorem add_valid_emails_website (es : List String) (ci : ContactInfo) :
    (add_valid_emails ci es).website = ci.website := by
  induction es generalizing ci with
  | nil => rfl
  | cons x xs ih =>
    show (add_valid_emails (if is_valid_email x then addEmail ci x else ci) xs).website = _
    rw [ih]; split <;> simp [addEmail_website]

theorem add_valid_emails_phone (es : List String) (ci : ContactInfo) :
    (add_valid_emails ci es).phone = ci.phone := by
  induction es generalizing ci with
  | nil => rfl
  | cons x xs ih =>
    show (add_valid_emails (if is_valid_email x then addEmail ci x else ci) xs).phone = _
    rw [ih]; split <;> simp [addEmail_phone]

theorem add_valid_emails_linkedin (es : List String) (ci : ContactInfo) :
    (add_valid_emails ci es).linkedin = ci.linkedin := by
  induction es generalizing ci with
  | nil => rfl
  | cons x xs ih =>
    show (add_valid_emails (if is_valid_email x then addEmail ci x else ci) xs).linkedin = _
    rw [ih]; split <;> simp [addEmail_linkedin]

theorem add_valid_emails_twitter (es : List String) (ci : ContactInfo) :
    (add_valid_emails ci es).twitter = ci.twitter := by
  induction es generalizing ci with
  | nil => rfl
  | cons x xs ih =>
    show (add_valid_emails (if is_valid_email x then addEmail ci x else ci) xs).twitter = _
    rw [ih]; split <;> simp [addEmail_twitter]

theorem add_valid_emails_personal_site (es : List String) (ci : ContactInfo) :
    (add_valid_emails ci es).personal_site = ci.personal_site := by
  induction es generalizing ci with
  | nil => rfl
  | cons x xs ih =>
    show (add_valid_emails (if is_valid_email x then addEmail ci x else ci) xs).personal_site = _
    rw [ih]; split <;> simp [addEmail_personal_site]

theorem lookup_dictSet (d : List (String × String)) (k v k' : String) :
    List.lookup k' (dictSet d k v) = if k' = k then some v else List.lookup k' d := by
  induction d with
  | nil =>
    by_cases h : k' = k
    · subst h; simp [dictSet, List.lookup_cons]
    · simp [dictSet, List.lookup_cons, beq_false_of_ne h, h]
  | cons p rest ih =>
    obtain ⟨k0, v0⟩ := p
    simp only [dictSet]
    by_cases h0 : k0 = k
    · subst h0
      rw [if_pos rfl]
      by_cases h : k' = k0
      · subst h; simp [List.lookup_cons]
      · simp [List.lookup_cons, beq_false_of_ne h, h]
    · rw [if_neg h0]
      by_cases h : k' = k0
      · subst h
        rw [List.lookup_cons, List.lookup_cons]
        simp only [beq_self_eq_true, if_true]
        rw [if_neg h0]
      · simp [List.lookup_cons, beq_false_of_ne h, ih]

theorem lookup_isSome_dictSet (d : List (String × String)) (k v k' : String)
    (h : (List.lookup k' d).isSome = true) :
    (List.lookup k' (dictSet d k v)).isSome = true := by
  rw [lookup_dictSet]
  split
  · rfl
  · exact h

/-! ## Monotonicity of the merge steps -/

theorem infoMono_refl (a : ContactInfo) : InfoMono a a :=
  ⟨fun _ he => he, fun _ => rfl, id, id, id, id, fun _ h => h⟩

theorem infoMono_trans {a b c : ContactInfo} (h1 : InfoMono a b) (h2 : InfoMono b c) :
    InfoMono a c := by
  obtain ⟨e1, w1, l1, t1, p1, s1, k1⟩ := h1
  obtain ⟨e2, w2, l2, t2, p2, s2, k2⟩ := h2
  refine ⟨fun e he => e2 e (e1 e he), ?_, fun h => l2 (l1 h), fun h => t2 (t1 h),
    fun h => p2 (p1 h), fun h => s2 (s1 h), fun k h => k2 k (k1 k h)⟩
  intro hw
  have hb := w1 hw
  have hbt : optTruthy b.website = true := by rw [hb]; exact hw
  rw [w2 hbt, hb]

theorem infoMono_add_valid (ci : ContactInfo) (es : List String) :
    InfoMono ci (add_valid_emails ci es) :=
  ⟨fun e he => (mem_add_valid_emails es ci e).mpr (Or.inl he),
   fun _ => add_valid_emails_website es ci,
   fun h => by rw [add_valid_emails_linkedin]; exact h,
   fun h => by rw [add_valid_emails_twitter]; exact h,
   fun h => by rw [add_valid_emails_phone]; exact h,
   fun h => by rw [add_valid_emails_personal_site]; exact h,
   fun k h => by rw [add_valid_emails_social_links]; exact h⟩

theorem infoMono_upd_linkedin (ci : ContactInfo) (v : String) :
    InfoMono ci { ci with linkedin := some v,
                          social_links := dictSet ci.social_links "linkedin" v } :=
  ⟨fun _ he => he, fun _ => rfl, fun _ => rfl, id, id, id,
   fun k' h => lookup_isSome_dictSet _ _ _ k' h⟩

theorem infoMono_upd_twitter (ci : ContactInfo) (v : String) :
    InfoMono ci { ci with twitter := some v,
                          social_links := dictSet ci.social_links "twitter" v } :=
  ⟨fun _ he => he, fun _ => rfl, id, fun _ => rfl, id, id,
   fun k' h => lookup_isSome_dictSet _ _ _ k' h⟩

theorem infoMono_upd_social (ci : ContactInfo) (k v : String) :
    InfoMono ci { ci with social_links := dictSet ci.social_links k v } :=
  ⟨fun _ he => he, fun _ => rfl, id, id, id, id,
   fun k' h => lookup_isSome_dictSet _ _ _ k' h⟩

theorem infoMono_upd_phone (ci : ContactInfo) (v : String) :
    InfoMono ci { ci with phone := some v } :=
  ⟨fun _ he => he, fun _ => rfl, id, id, fun _ => rfl, id, fun _ h => h⟩

theorem infoMono_upd_personal (ci : ContactInfo) (v : String) :
    InfoMono ci { ci with personal_site := some v } :=
  ⟨fun _ he => he, fun _ => rfl, id, id, id, fun _ => rfl, fun _ h => h⟩

theorem infoMono_upd_website (ci : ContactInfo) (v : String)
    (h : ¬ optTruthy ci.website = true) :
    InfoMono ci { ci with website := some v } :=
  ⟨fun _ he => he, fun hw => absurd hw h, id, id, id, id, fun _ h' => h'⟩

theorem infoMono_parse_line (depth : Nat) (src : String) (acc : ContactInfo × List String)
    (line : String) : InfoMono acc.1 (parse_line depth src acc line).1 := by
  simp only [parse_line]
  split_ifs <;>
    first
      | exact infoMono_refl _
      | exact infoMono_add_valid _ _
      | exact infoMono_upd_linkedin _ _
      | exact infoMono_upd_twitter _ _
      | exact infoMono_upd_phone _ _
      | exact infoMono_upd_personal _ _
      | exact infoMono_trans (infoMono_upd_website _ _ (by assumption))
          (infoMono_upd_personal _ _)
      | exact infoMono_upd_website _ _ (by assumption)

theorem infoMono_parse_fold (lines : List String) (depth : Nat) (src : String)
    (acc : ContactInfo × List String) :
    InfoMono acc.1 (lines.foldl (parse_line depth src) acc).1 := by
  induction lines generalizing acc with
  | nil => exact infoMono_refl _
  | cons l ls ih =>
    exact infoMono_trans (infoMono_parse_line depth src acc l) (ih (parse_line depth src acc l))

theorem infoMono_parse_llm (cfg : ContactExtractionConfig) (response : String) (depth : Nat)
    (src : String) (ci : ContactInfo) :
    InfoMono ci (parse_llm_response cfg response depth src ci).1 := by
  unfold parse_llm_response
  exact infoMono_parse_fold _ depth src (ci, [])

theorem infoMono_regex_social (env : Env) (content platform : String) (ci : ContactInfo) :
    InfoMono ci (regex_social_step env content platform ci) := by
  unfold regex_social_step
  cases env.social_matches platform content with
  | nil => exact infoMono_refl _
  | cons m ms =>
    split_ifs with h1 h2
    · subst h1
      exact infoMono_trans (infoMono_upd_social _ _ _)
        ⟨fun _ he => he, fun _ => rfl, fun _ => rfl, id, id, id, fun _ h => h⟩
    · exact infoMono_trans (infoMono_upd_social _ _ _)
        ⟨fun _ he => he, fun _ => rfl, id, fun _ => rfl, id, id, fun _ h => h⟩
    · exact infoMono_upd_social _ _ _

theorem infoMono_regex (env : Env) (content : String) (ci : ContactInfo) :
    InfoMono ci (regex_extract env content ci) := by
  unfold regex_extract
  exact infoMono_trans (infoMono_add_valid _ _)
    (infoMono_trans (infoMono_regex_social _ _ _ _)
      (infoMono_trans (infoMono_regex_social _ _ _ _) (infoMono_regex_social _ _ _ _)))

theorem infoMono_intelligent (env : Env) (cfg : ContactExtractionConfig)
    (content src : String) (depth : Nat) (ci : ContactInfo) :
    InfoMono ci (intelligent_extract env cfg content src depth ci).1 := by
  simp only [intelligent_extract]
  split
  · exact infoMono_parse_llm _ _ _ _ _
  · exact infoMono_regex _ _ _

theorem infoMono_extract (env : Env) (cfg : ContactExtractionConfig) (content src : String)
    (depth : Nat) (ci : ContactInfo) :
    InfoMono ci (extract_from_content env cfg content src depth ci).1 := by
  simp only [extract_from_content]
  split_ifs
  · exact infoMono_intelligent _ _ _ _ _ _
  · exact infoMono_regex _ _ _

/-! ## The links a page can contribute -/

theorem parse_line_links (depth : Nat) (src : String) (acc : ContactInfo × List String)
    (line : String) :
    ∃ add, (parse_line depth src acc line).2 = acc.2 ++ add ∧
      (∀ l ∈ add, pyStartswith l "http" = true ∧ is_safe_drill_down_link l src = true) ∧
      (2 ≤ depth → add = []) := by
  simp only [parse_line]
  split_ifs <;>
    first
      | exact ⟨[], (List.append_nil acc.2).symm,
          fun l hl => absurd hl (List.not_mem_nil l), fun _ => rfl⟩
      | exact ⟨filter_candidate_links
            ((pySplit (pyStrip (pyReplace (pyStrip line) "NEXT_LINKS:" "")) ',').map pyStrip)
            src,
          rfl,
          fun l hl => by
            simp only [filter_candidate_links, List.mem_filter, Bool.and_eq_true] at hl
            exact hl.2,
          fun hd => by
            have hcond : pyStartswith (pyStrip line) "NEXT_LINKS:" = true ∧ depth < 2 := by
              assumption
            exact absurd hcond.2 (by omega)⟩

theorem parse_fold_links (lines : List String) (depth : Nat) (src : String)
    (acc : ContactInfo × List String) :
    ∃ add, (lines.foldl (parse_line depth src) acc).2 = acc.2 ++ add ∧
      (∀ l ∈ add, pyStartswith l "http" = true ∧ is_safe_drill_down_link l src = true) ∧
      (2 ≤ depth → add = []) := by
  induction lines generalizing acc with
  | nil => exact ⟨[], by simp, by simp, fun _ => rfl⟩
  | cons x xs ih =>
    obtain ⟨a1, e1, p1, d1⟩ := parse_line_links depth src acc x
    obtain ⟨a2, e2, p2, d2⟩ := ih (parse_line depth src acc x)
    refine ⟨a1 ++ a2, ?_, ?_, ?_⟩
    · rw [List.foldl_cons, e2, e1, List.append_assoc]
    · intro l hl
      rcases List.mem_append.mp hl with h | h
      · exact p1 l h
      · exact p2 l h
    · intro hd; rw [d1 hd, d2 hd]; rfl

theorem parse_llm_links_length (cfg : ContactExtractionConfig) (response : String)
    (depth : Nat) (src : String) (ci : ContactInfo) :
    (parse_llm_response cfg response depth src ci).2.length ≤
      (List.lookup (depth + 1) cfg.max_links_per_level).getD 2 := by
  simp only [parse_llm_response]
  exact List.length_take_le _ _

theorem parse_llm_links_prop (cfg : ContactExtractionConfig) (response : String)
    (depth : Nat) (src : String) (ci : ContactInfo) :
    ∀ l ∈ (parse_llm_response cfg response depth src ci).2,
      pyStartswith l "http" = true ∧ is_safe_drill_down_link l src = true := by
  simp only [parse_llm_response]
  intro l hl
  have hl' := List.take_subset _ _ hl
  obtain ⟨add, he, hp, _⟩ := parse_fold_links (pySplit response '\n') depth src (ci, [])
  rw [he] at hl'
  exact hp l (by simpa using hl')

theorem parse_llm_links_depth2 (cfg : ContactExtractionConfig) (response : String)
    (depth : Nat) (src : String) (ci : ContactInfo) (hd : 2 ≤ depth) :
    (parse_llm_response cfg response depth src ci).2 = [] := by
  simp only [parse_llm_response]
  obtain ⟨add, he, _, hdep⟩ := parse_fold_links (pySplit response '\n') depth src (ci, [])
  rw [he, hdep hd]
  simp

theorem extract_links_length (env : Env) (cfg : ContactExtractionConfig)
    (content src : String) (depth : Nat) (ci : ContactInfo) :
    (extract_from_content env cfg content src depth ci).2.length ≤
      (List.lookup (depth + 1) cfg.max_links_per_level).getD 2 := by
  simp only [extract_from_content]
  split_ifs
  · simp only [intelligent_extract]
    split
    · exact parse_llm_links_length _ _ _ _ _
    · simp
  · simp

theorem extract_links_prop (env : Env) (cfg : ContactExtractionConfig)
    (content src : String) (depth : Nat) (ci : ContactInfo) :
    ∀ l ∈ (extract_from_content env cfg content src depth ci).2,
      pyStartswith l "http" = true ∧ is_safe_drill_down_link l src = true := by
  simp only [extract_from_content]
  split_ifs
  · simp only [intelligent_extract]
    split
    · exact parse_llm_links_prop _ _ _ _ _
    · simp
  · simp

theorem extract_links_depth2 (env : Env) (cfg : ContactExtractionConfig)
    (content src : String) (depth : Nat) (ci : ContactInfo) (hd : 2 ≤ depth) :
    (extract_from_content env cfg content src depth ci).2 = [] := by
  simp only [extract_from_content]
  split_ifs
  · simp only [intelligent_extract]
    split
    · exact parse_llm_links_depth2 _ _ _ _ _ hd
    · rfl
  · rfl

/-! ## The branch bound -/

theorem branchBound_pos (cfg : ContactExtractionConfig) (depth : Nat) :
    1 ≤ branchBound cfg depth := by
  unfold branchBound
  cases h : cfg.max_drilling_depth - depth with
  | zero => simp [branchBoundGo]
  | succ f =>
    simp only [branchBoundGo]
    split <;> omega

theorem branchBound_unfold (cfg : ContactExtractionConfig) (depth : Nat)
    (h : depth < cfg.max_drilling_depth) :
    branchBound cfg depth =
      if depth + 1 < cfg.max_drilling_depth ∧ depth < 2 then
        1 + ((List.lookup (depth + 1) cfg.max_links_per_level).getD 2) *
          branchBound cfg (depth + 1)
      else 1 := by
  unfold branchBound
  have hf : cfg.max_drilling_depth - depth = (cfg.max_drilling_depth - (depth + 1)) + 1 := by
    omega
  rw [hf]
  rfl

/-! ## The crawl-step and drilling-loop guarantees -/

theorem stepOK_refl (cfg : ContactExtractionConfig) (url : String) (depth : Nat)
    (st : CrawlState) : StepOK cfg url depth st st := by
  refine ⟨infoMono_refl _, [], [], by simp, by simp, rfl, List.nodup_nil, ?_, Or.inl rfl, ?_⟩
  · intro u hu; exact absurd hu (List.not_mem_nil u)
  · exact Nat.zero_le _

theorem drillOK_nil (cfg : ContactExtractionConfig) (depth : Nat) (st : CrawlState) :
    DrillOK cfg [] depth st st := by
  refine ⟨infoMono_refl _, [], [], by simp, by simp, rfl, List.nodup_nil, ?_, ?_, ?_, ?_, ?_⟩
  · intro u hu; exact absurd hu (List.not_mem_nil u)
  · intro q hq; exact absurd hq (List.not_mem_nil q)
  · simp
  · intro p hp; exact absurd hp (List.not_mem_nil p)
  · exact Nat.zero_le _

theorem drillOK_cons {cfg : ContactExtractionConfig} {l : String} {ls : List String}
    {depth : Nat} {st mid r : CrawlState}
    (h1 : StepOK cfg l (depth + 1) st mid) (h2 : DrillOK cfg ls depth mid r) :
    DrillOK cfg (l :: ls) depth st r := by
  obtain ⟨m1, dv1, dt1, hv1, ht1, hm1, hn1, hf1, hs1, hl1⟩ := h1
  obtain ⟨m2, dv2, dt2, hv2, ht2, hm2, hn2, hf2, hd2, hc2, he2, hl2⟩ := h2
  have hdt1 : ∀ q ∈ dt1, depth + 1 ≤ q.2 := by
    intro q hq
    rcases hs1 with h | ⟨rest, hrest, hq2⟩
    · rw [h] at hq; exact absurd hq (List.not_mem_nil q)
    · rw [hrest] at hq
      rcases List.mem_cons.mp hq with h' | h'
      · rw [h']
      · exact le_trans (Nat.le_succ _) (hq2 q h')
  have hfc1 : (dt1.filter (fun p => p.2 = depth + 1)).length ≤ 1 := by
    rcases hs1 with h | ⟨rest, hrest, hq2⟩
    · rw [h]; simp
    · rw [hrest]
      have hrnil : (rest.filter (fun p : String × Nat => p.2 = depth + 1)) = [] := by
        rw [List.filter_eq_nil_iff]
        intro a ha
        have := hq2 a ha
        simp only [decide_eq_true_eq]
        omega
      simp only [List.filter_cons, hrnil]
      split <;> simp
  refine ⟨infoMono_trans m1 m2, dv1 ++ dv2, dt1 ++ dt2, ?_, ?_, ?_, ?_, ?_, ?_, ?_, ?_, ?_⟩
  · rw [hv2, hv1, List.append_assoc]
  · rw [ht2, ht1, List.append_assoc]
  · rw [List.map_append, hm1, hm2]
  · refine List.Nodup.append hn1 hn2 ?_
    intro a ha1 ha2
    exact hf2 a ha2 (by rw [hv1]; exact List.mem_append.mpr (Or.inr ha1))
  · intro u hu
    rcases List.mem_append.mp hu with h | h
    · exact hf1 u h
    · intro hmem
      exact hf2 u h (by rw [hv1]; exact List.mem_append.mpr (Or.inl hmem))
  · intro q hq
    rcases List.mem_append.mp hq with h | h
    · exact hdt1 q h
    · exact hd2 q h
  · rw [List.filter_append, List.length_append]
    calc (dt1.filter (fun p => p.2 = depth + 1)).length +
          (dt2.filter (fun p => p.2 = depth + 1)).length
        ≤ 1 + (dt2.filter (fun p => p.2 = depth + 1)).length := Nat.add_le_add_right hfc1 _
      _ ≤ 1 + ls.length := Nat.add_le_add_left hc2 _
      _ = (l :: ls).length := by rw [List.length_cons]; omega
  · intro p hp hpd
    rcases List.mem_append.mp hp with h | h
    · rcases hs1 with hnil | ⟨rest, hrest, hq2⟩
      · rw [hnil] at h; exact absurd h (List.not_mem_nil p)
      · rw [hrest] at h
        rcases List.mem_cons.mp h with h' | h'
        · constructor
          · rw [h']; exact List.mem_cons.mpr (Or.inl rfl)
          · have hl_dv : p.1 ∈ dv1 := by
              rw [← hm1, hrest, h']
              exact List.mem_map_of_mem _ (List.mem_cons.mpr (Or.inl rfl))
            exact hf1 _ hl_dv
        · exfalso
          have := hq2 p h'
          omega
    · obtain ⟨hin, hnv⟩ := he2 p h hpd
      constructor
      · exact List.mem_cons_of_mem _ hin
      · intro hmem
        exact hnv (by rw [hv1]; exact List.mem_append.mpr (Or.inl hmem))
  · rw [List.length_append]
    calc dv1.length + dv2.length
        ≤ (if depth + 1 < cfg.max_drilling_depth then branchBound cfg (depth + 1) else 0) +
          ls.length * (if depth + 1 < cfg.max_drilling_depth then branchBound cfg (depth + 1) else 0) :=
          Nat.add_le_add hl1 hl2
      _ = (l :: ls).length *
          (if depth + 1 < cfg.max_drilling_depth then branchBound cfg (depth + 1) else 0) := by
          rw [List.length_cons]; ring

theorem drillOK_of_stepOK (cfg : ContactExtractionConfig) (depth : Nat)
    (f : String → CrawlState → CrawlState)
    (hf : ∀ l s, StepOK cfg l (depth + 1) s (f l s)) :
    ∀ (links : List String) (st : CrawlState),
      DrillOK cfg links depth st (links.foldl (fun s l => f l s) st) := by
  intro links
  induction links with
  | nil => intro st; exact drillOK_nil cfg depth st
  | cons l ls ih =>
    intro st
    rw [List.foldl_cons]
    exact drillOK_cons (hf l st) (ih (f l st))

theorem crawl_master (fuel : Nat) (env : Env) (cfg : ContactExtractionConfig)
    (url : String) (depth : Nat) (st : CrawlState) :
    StepOK cfg url depth st (scrape_and_extract env cfg fuel url depth st) := by
  induction fuel generalizing url depth st with
  | zero =>
    simp only [scrape_and_extract]
    exact stepOK_refl cfg url depth st
  | succ fuel ih =>
    simp only [scrape_and_extract]
    split_ifs with hguard
    · exact stepOK_refl cfg url depth st
    · push_neg at hguard
      obtain ⟨hdep, hvis⟩ := hguard
      cases hfetch : env.fetch url with
      | none =>
        refine ⟨infoMono_refl _, [url], [(url, depth)], rfl, rfl, rfl, ?_, ?_, ?_, ?_⟩
        · simp
        · intro u hu
          rw [List.mem_singleton.mp hu]
          exact hvis
        · refine Or.inr ⟨[], rfl, ?_⟩
          intro q hq
          exact absurd hq (List.not_mem_nil q)
        · rw [if_pos hdep]
          exact branchBound_pos cfg depth
      | some content =>
        have hdrill := drillOK_of_stepOK cfg depth
          (fun l s => scrape_and_extract env cfg fuel l (depth + 1) s)
          (fun l s => ih l (depth + 1) s)
          (extract_from_content env cfg content url depth st.info).2
          { info := (extract_from_content env cfg content url depth st.info).1,
            visited := st.visited ++ [url], trace := st.trace ++ [(url, depth)] }
        obtain ⟨m2, dv2, dt2, hv2, ht2, hm2, hn2, hf2, hd2, hc2, he2, hl2⟩ := hdrill
        refine ⟨infoMono_trans (infoMono_extract env cfg content url depth st.info) m2,
          url :: dv2, (url, depth) :: dt2, ?_, ?_, ?_, ?_, ?_, ?_, ?_⟩
        · rw [hv2]
          simp
        · rw [ht2]
          simp
        · simp [hm2]
        · rw [List.nodup_cons]
          refine ⟨?_, hn2⟩
          intro hmem
          exact hf2 url hmem (List.mem_append.mpr (Or.inr (by simp)))
        · intro u hu
          rcases List.mem_cons.mp hu with h | h
          · rw [h]; exact hvis
          · intro hmem
            exact hf2 u h (List.mem_append.mpr (Or.inl hmem))
        · exact Or.inr ⟨dt2, rfl, hd2⟩
        · rw [if_pos hdep, List.length_cons]
          by_cases hcase : depth + 1 < cfg.max_drilling_depth ∧ depth < 2
          · rw [branchBound_unfold cfg depth hdep, if_pos hcase]
            have hlink := extract_links_length env cfg content url depth st.info
            have hb : dv2.length ≤
                ((List.lookup (depth + 1) cfg.max_links_per_level).getD 2) *
                  branchBound cfg (depth + 1) := by
              rw [if_pos hcase.1] at hl2
              exact le_trans hl2 (Nat.mul_le_mul_right _ hlink)
            omega
          · rw [branchBound_unfold cfg depth hdep, if_neg hcase]
            have hz : dv2.length = 0 := by
              by_cases h1 : depth + 1 < cfg.max_drilling_depth
              · have h2 : 2 ≤ depth := by
                  rcases Nat.lt_or_ge depth 2 with h | h
                  · exact absurd ⟨h1, h⟩ hcase
                  · exact h
                have hnil := extract_links_depth2 env cfg content url depth st.info h2
                rw [hnil] at hl2
                simpa using hl2
              · rw [if_neg h1] at hl2
                simpa using hl2
            omega

/-- The drilling loop satisfies `DrillOK` for every fuel value. -/
theorem drill_master (fuel : Nat) (env : Env) (cfg : ContactExtractionConfig)
    (depth : Nat) (links : List String) (st : CrawlState) :
    DrillOK cfg links depth st (drill_links env cfg fuel depth links st) := by
  unfold drill_links
  exact drillOK_of_stepOK cfg depth
    (fun l s => scrape_and_extract env cfg fuel l (depth + 1) s)
    (fun l s => crawl_master fuel env cfg l (depth + 1) s) links st

/-! ## Crawl-wide consequences -/

theorem stepOK_traceInv {cfg : ContactExtractionConfig} {url : String} {depth : Nat}
    {st r : CrawlState} (h : StepOK cfg url depth st r)
    (hv : st.trace.map Prod.fst = st.visited) (hn : st.visited.Nodup) :
    r.trace.map Prod.fst = r.visited ∧ r.visited.Nodup := by
  obtain ⟨_, dv, dt, hveq, hteq, hmap, hnodup, hfresh, _, _⟩ := h
  constructor
  · rw [hteq, hveq, List.map_append, hmap, hv]
  · rw [hveq]
    exact List.Nodup.append hn hnodup (fun a ha hb => (hfresh a hb) ha)

theorem seeds_traceInv (env : Env) (cfg : ContactExtractionConfig) (urls : List String) :
    ∀ st : CrawlState, st.trace.map Prod.fst = st.visited → st.visited.Nodup →
      (urls.foldl (seed_step env cfg) st).trace.map Prod.fst =
        (urls.foldl (seed_step env cfg) st).visited ∧
      (urls.foldl (seed_step env cfg) st).visited.Nodup := by
  induction urls with
  | nil => intro st h1 h2; exact ⟨h1, h2⟩
  | cons u us ih =>
    intro st h1 h2
    rw [List.foldl_cons]
    unfold seed_step
    split_ifs with hm
    · exact ih st h1 h2
    · obtain ⟨h1', h2'⟩ :=
        stepOK_traceInv (crawl_master (cfg.max_drilling_depth + 1) env cfg u 0 st) h1 h2
      exact ih _ h1' h2'

theorem perform_traceInv (env : Env) (cfg : ContactExtractionConfig) (urls : List String)
    (ci : ContactInfo) :
    (perform_multi_level_extraction env cfg urls ci).trace.map Prod.fst =
      (perform_multi_level_extraction env cfg urls ci).visited ∧
    (perform_multi_level_extraction env cfg urls ci).visited.Nodup := by
  unfold perform_multi_level_extraction
  exact seeds_traceInv env cfg urls { info := ci, visited := [], trace := [] } rfl List.nodup_nil

theorem seeds_visited_bound (env : Env) (cfg : ContactExtractionConfig) (urls : List String) :
    ∀ st : CrawlState,
      (urls.foldl (seed_step env cfg) st).visited.length ≤
        st.visited.length + urls.length * branchBound cfg 0 := by
  induction urls with
  | nil => intro st; simp
  | cons u us ih =>
    intro st
    rw [List.foldl_cons]
    unfold seed_step
    split_ifs with hm
    · calc (us.foldl (seed_step env cfg) st).visited.length
          ≤ st.visited.length + us.length * branchBound cfg 0 := ih st
        _ ≤ st.visited.length + (u :: us).length * branchBound cfg 0 := by
            rw [List.length_cons]
            exact Nat.add_le_add_left
              (Nat.mul_le_mul_right _ (Nat.le_succ us.length)) _
    · obtain ⟨_, dv, dt, hveq, _, _, _, _, _, hlen⟩ :=
        crawl_master (cfg.max_drilling_depth + 1) env cfg u 0 st
      have hstep : (scrape_and_extract env cfg (cfg.max_drilling_depth + 1) u 0 st).visited.length =
          st.visited.length + dv.length := by
        rw [hveq, List.length_append]
      have hb : dv.length ≤ branchBound cfg 0 := by
        refine le_trans hlen ?_
        split_ifs
        · exact le_refl _
        · exact Nat.zero_le _
      calc (us.foldl (seed_step env cfg)
              (scrape_and_extract env cfg (cfg.max_drilling_depth + 1) u 0 st)).visited.length
          ≤ (scrape_and_extract env cfg (cfg.max_drilling_depth + 1) u 0 st).visited.length +
            us.length * branchBound cfg 0 := ih _
        _ ≤ (st.visited.length + branchBound cfg 0) + us.length * branchBound cfg 0 := by
            rw [hstep]
            exact Nat.add_le_add_right (Nat.add_le_add_left hb _) _
        _ = st.visited.length + (u :: us).length * branchBound cfg 0 := by
            rw [List.length_cons]; ring

theorem perform_visited_bound (env : Env) (cfg : ContactExtractionConfig)
    (urls : List String) (ci : ContactInfo) :
    (perform_multi_level_extraction env cfg urls ci).visited.length ≤
      urls.length * branchBound cfg 0 := by
  unfold perform_multi_level_extraction
  have := seeds_visited_bound env cfg urls { info := ci, visited := [], trace := [] }
  simpa using this

theorem seeds_infoMono (env : Env) (cfg : ContactExtractionConfig) (urls : List String) :
    ∀ st : CrawlState, InfoMono st.info (urls.foldl (seed_step env cfg) st).info := by
  induction urls with
  | nil => intro st; exact infoMono_refl _
  | cons u us ih =>
    intro st
    rw [List.foldl_cons]
    unfold seed_step
    split_ifs with hm
    · exact ih st
    · obtain ⟨m, _⟩ := crawl_master (cfg.max_drilling_depth + 1) env cfg u 0 st
      exact infoMono_trans m (ih _)

theorem perform_infoMono (env : Env) (cfg : ContactExtractionConfig) (urls : List String)
    (ci : ContactInfo) :
    InfoMono ci (perform_multi_level_extraction env cfg urls ci).info := by
  unfold perform_multi_level_extraction
  exact seeds_infoMono env cfg urls { info := ci, visited := [], trace := [] }

/-! ## Failure-mode behaviour -/

theorem intelligent_fallback (env : Env) (cfg : ContactExtractionConfig)
    (content src : String) (depth : Nat) (ci : ContactInfo)
    (hc : env.chat (prompt_for_depth (truncate_content content) src depth) = none) :
    intelligent_extract env cfg content src depth ci =
      (regex_extract env (truncate_content content) ci, []) := by
  simp only [intelligent_extract, hc]

theorem extract_dead_chat (env : Env) (cfg : ContactExtractionConfig)
    (content src : String) (depth : Nat) (ci : ContactInfo)
    (hc : ∀ s, env.chat s = none) :
    (extract_from_content env cfg content src depth ci).2 = [] := by
  simp only [extract_from_content]
  split_ifs
  · rw [intelligent_fallback env cfg content src depth ci (hc _)]
  · rfl

theorem seeds_dead_fetch (env : Env) (cfg : ContactExtractionConfig)
    (hf : ∀ u, env.fetch u = none) (urls : List String) :
    ∀ st : CrawlState, (∀ p ∈ st.trace, p.2 = 0) →
      (urls.foldl (seed_step env cfg) st).info = st.info ∧
      (∀ p ∈ (urls.foldl (seed_step env cfg) st).trace, p.2 = 0) := by
  induction urls with
  | nil => intro st h; exact ⟨rfl, h⟩
  | cons u us ih =>
    intro st h
    rw [List.foldl_cons]
    unfold seed_step
    split_ifs with hm
    · exact ih st h
    · have hstep : scrape_and_extract env cfg (cfg.max_drilling_depth + 1) u 0 st =
          if cfg.max_drilling_depth ≤ 0 ∨ u ∈ st.visited then st
          else { info := st.info, visited := st.visited ++ [u],
                 trace := st.trace ++ [(u, 0)] } := by
        simp only [scrape_and_extract, hf u]
      rw [hstep]
      split_ifs with hg
      · exact ih st h
      · refine ih _ ?_
        intro p hp
        rcases List.mem_append.mp hp with h' | h'
        · exact h p h'
        · rw [List.mem_singleton.mp h']

theorem perform_dead_fetch (env : Env) (cfg : ContactExtractionConfig)
    (urls : List String) (ci : ContactInfo) (hf : ∀ u, env.fetch u = none) :
    (perform_multi_level_extraction env cfg urls ci).info = ci ∧
    ∀ p ∈ (perform_multi_level_extraction env cfg urls ci).trace, p.2 = 0 := by
  unfold perform_multi_level_extraction
  exact seeds_dead_fetch env cfg hf urls { info := ci, visited := [], trace := [] }
    (fun p hp => absurd hp (List.not_mem_nil p))

theorem seeds_dead_chat (env : Env) (cfg : ContactExtractionConfig)
    (hc : ∀ s, env.chat s = none) (urls : List String) :
    ∀ st : CrawlState, (∀ p ∈ st.trace, p.2 = 0) →
      (∀ p ∈ (urls.foldl (seed_step env cfg) st).trace, p.2 = 0) := by
  induction urls with
  | nil => intro st h; exact h
  | cons u us ih =>
    intro st h
    rw [List.foldl_cons]
    unfold seed_step
    split_ifs with hm
    · exact ih st h
    · refine ih _ ?_
      simp only [scrape_and_extract]
      split_ifs with hg
      · exact h
      · cases hfe : env.fetch u with
        | none =>
          intro p hp
          rcases List.mem_append.mp hp with h' | h'
          · exact h p h'
          · rw [List.mem_singleton.mp h']
        | some content =>
          dsimp only
          rw [extract_dead_chat env cfg content u 0 st.info hc, List.foldl_nil]
          intro p hp
          rcases List.mem_append.mp hp with h' | h'
          · exact h p h'
          · rw [List.mem_singleton.mp h']

theorem perform_dead_chat (env : Env) (cfg : ContactExtractionConfig)
    (urls : List String) (ci : ContactInfo) (hc : ∀ s, env.chat s = none) :
    ∀ p ∈ (perform_multi_level_extraction env cfg urls ci).trace, p.2 = 0 := by
  unfold perform_multi_level_extraction
  exact seeds_dead_chat env cfg hc urls { info := ci, visited := [], trace := [] }
    (fun p hp => absurd hp (List.not_mem_nil p))

/-! ## The fake-email-filtering flag is never consulted -/

theorem extract_config_flag (env : Env) (d t : Nat) (l : List (Nat × Nat)) (b₁ b₂ : Bool)
    (content src : String) (depth : Nat) (ci : ContactInfo) :
    extract_from_content env ⟨d, t, l, b₁⟩ content src depth ci =
      extract_from_content env ⟨d, t, l, b₂⟩ content src depth ci := rfl

theorem scrape_config_flag (env : Env) (d t : Nat) (l : List (Nat × Nat)) (b₁ b₂ : Bool)
    (fuel : Nat) :
    ∀ (url : String) (depth : Nat) (st : CrawlState),
      scrape_and_extract env ⟨d, t, l, b₁⟩ fuel url depth st =
        scrape_and_extract env ⟨d, t, l, b₂⟩ fuel url depth st := by
  induction fuel with
  | zero => intro url depth st; rfl
  | succ fuel ih =>
    intro url depth st
    simp only [scrape_and_extract]
    split_ifs with h
    · rfl
    · cases env.fetch url with
      | none => rfl
      | some content =>
        dsimp only
        rw [extract_config_flag env d t l b₁ b₂ content url depth st.info]
        have hfun : (fun (s : CrawlState) (l' : String) =>
            scrape_and_extract env ⟨d, t, l, b₁⟩ fuel l' (depth + 1) s) =
            (fun (s : CrawlState) (l' : String) =>
              scrape_and_extract env ⟨d, t, l, b₂⟩ fuel l' (depth + 1) s) := by
          funext s l'
          exact ih l' (depth + 1) s
        rw [hfun]

theorem perform_config_flag (env : Env) (d t : Nat) (l : List (Nat × Nat)) (b₁ b₂ : Bool)
    (urls : List String) (ci : ContactInfo) :
    perform_multi_level_extraction env ⟨d, t, l, b₁⟩ urls ci =
      perform_multi_level_extraction env ⟨d, t, l, b₂⟩ urls ci := by
  unfold perform_multi_level_extraction
  have hstep : seed_step env ⟨d, t, l, b₁⟩ = seed_step env ⟨d, t, l, b₂⟩ := by
    funext st url
    unfold seed_step
    split_ifs with h
    · rfl
    · exact scrape_config_flag env d t l b₁ b₂ (d + 1) url 0 st
  rw [hstep]

/-! ## Per-branch merge semantics of the response parser -/

theorem parse_line_emails_branch (depth : Nat) (src : String) (ci : ContactInfo)
    (links : List String) (line : String)
    (h1 : pyStartswith (pyStrip line) "EMAILS:" = true)
    (h2 : pyStrip (pyReplace (pyStrip line) "EMAILS:" "") ≠ "")
    (h3 : pyStrip (pyReplace (pyStrip line) "EMAILS:" "") ≠ "None") :
    ∀ e, e ∈ (parse_line depth src (ci, links) line).1.emails ↔
      e ∈ ci.emails ∨
        (e ∈ (pySplit (pyStrip (pyReplace (pyStrip line) "EMAILS:" "")) ',').map pyStrip ∧
          is_valid_email e = true) := by
  intro e
  simp only [parse_line]
  rw [if_pos h1, if_pos ⟨h2, h3⟩]
  exact mem_add_valid_emails _ _ _

theorem parse_line_linkedin_branch (depth : Nat) (src : String) (ci : ContactInfo)
    (links : List String) (line : String)
    (h1 : pyStartswith (pyStrip line) "EMAILS:" = false)
    (h2 : pyStartswith (pyStrip line) "LINKEDIN:" = true)
    (h3 : pyStrip (pyReplace (pyStrip line) "LINKEDIN:" "") ≠ "")
    (h4 : pyStartswith (pyStrip (pyReplace (pyStrip line) "LINKEDIN:" "")) "http" = true) :
    (parse_line depth src (ci, links) line).1.linkedin =
      some (pyStrip (pyReplace (pyStrip line) "LINKEDIN:" "")) ∧
    List.lookup "linkedin" (parse_line depth src (ci, links) line).1.social_links =
      some (pyStrip (pyReplace (pyStrip line) "LINKEDIN:" "")) := by
  simp only [parse_line]
  rw [if_neg (by rw [h1]; exact Bool.false_ne_true), if_pos h2, if_pos ⟨h3, h4⟩]
  refine ⟨rfl, ?_⟩
  rw [lookup_dictSet]
  simp

theorem parse_line_twitter_branch (depth : Nat) (src : String) (ci : ContactInfo)
    (links : List String) (line : String)
    (h1 : pyStartswith (pyStrip line) "EMAILS:" = false)
    (h2 : pyStartswith (pyStrip line) "LINKEDIN:" = false)
    (h3 : pyStartswith (pyStrip line) "TWITTER:" = true)
    (h4 : pyStrip (pyReplace (pyStrip line) "TWITTER:" "") ≠ "")
    (h5 : pyStartswith (pyStrip (pyReplace (pyStrip line) "TWITTER:" "")) "http" = true) :
    (parse_line depth src (ci, links) line).1.twitter =
      some (pyStrip (pyReplace (pyStrip line) "TWITTER:" "")) ∧
    List.lookup "twitter" (parse_line depth src (ci, links) line).1.social_links =
      some (pyStrip (pyReplace (pyStrip line) "TWITTER:" "")) := by
  simp only [parse_line]
  rw [if_neg (by rw [h1]; exact Bool.false_ne_true),
    if_neg (by rw [h2]; exact Bool.false_ne_true), if_pos h3, if_pos ⟨h4, h5⟩]
  refine ⟨rfl, ?_⟩
  rw [lookup_dictSet]
  simp

theorem parse_line_phone_branch (depth : Nat) (src : String) (ci : ContactInfo)
    (links : List String) (line : String)
    (h1 : pyStartswith (pyStrip line) "EMAILS:" = false)
    (h2 : pyStartswith (pyStrip line) "LINKEDIN:" = false)
    (h3 : pyStartswith (pyStrip line) "TWITTER:" = false)
    (h4 : pyStartswith (pyStrip line) "PHONE:" = true)
    (h5 : pyStrip (pyReplace (pyStrip line) "PHONE:" "") ≠ "")
    (h6 : pyStrip (pyReplace (pyStrip line) "PHONE:" "") ≠ "None") :
    (parse_line depth src (ci, links) line).1.phone =
      some (pyStrip (pyReplace (pyStrip line) "PHONE:" "")) := by
  simp only [parse_line]
  rw [if_neg (by rw [h1]; exact Bool.false_ne_true),
    if_neg (by rw [h2]; exact Bool.false_ne_true),
    if_neg (by rw [h3]; exact Bool.false_ne_true), if_pos h4, if_pos ⟨h5, h6⟩]

theorem parse_line_website_branch (depth : Nat) (src : String) (ci : ContactInfo)
    (links : List String) (line : String)
    (h1 : pyStartswith (pyStrip line) "EMAILS:" = false)
    (h2 : pyStartswith (pyStrip line) "LINKEDIN:" = false)
    (h3 : pyStartswith (pyStrip line) "TWITTER:" = false)
    (h4 : pyStartswith (pyStrip line) "PHONE:" = false)
    (h5 : pyStartswith (pyStrip line) "WEBSITE:" = true)
    (h6 : pyStrip (pyReplace (pyStrip line) "WEBSITE:" "") ≠ "")
    (h7 : pyStartswith (pyStrip (pyReplace (pyStrip line) "WEBSITE:" "")) "http" = true) :
    (parse_line depth src (ci, links) line).1.website =
      (if optTruthy ci.website = true then ci.website
       else some (pyStrip (pyReplace (pyStrip line) "WEBSITE:" ""))) := by
  simp only [parse_line]
  rw [if_neg (by rw [h1]; exact Bool.false_ne_true),
    if_neg (by rw [h2]; exact Bool.false_ne_true),
    if_neg (by rw [h3]; exact Bool.false_ne_true),
    if_neg (by rw [h4]; exact Bool.false_ne_true), if_pos h5, if_pos ⟨h6, h7⟩]
  split_ifs with hw hp hp
  · rfl
  · rfl
  · rfl
  · rfl

theorem parse_line_personal_site_branch (depth : Nat) (src : String) (ci : ContactInfo)
    (links : List String) (line : String)
    (h1 : pyStartswith (pyStrip line) "EMAILS:" = false)
    (h2 : pyStartswith (pyStrip line) "LINKEDIN:" = false)
    (h3 : pyStartswith (pyStrip line) "TWITTER:" = false)
    (h4 : pyStartswith (pyStrip line) "PHONE:" = false)
    (h5 : pyStartswith (pyStrip line) "WEBSITE:" = true)
    (h6 : pyStrip (pyReplace (pyStrip line) "WEBSITE:" "") ≠ "")
    (h7 : pyStartswith (pyStrip (pyReplace (pyStrip line) "WEBSITE:" "")) "http" = true) :
    (parse_line depth src (ci, links) line).1.personal_site =
      (if is_personal_site (pyStrip (pyReplace (pyStrip line) "WEBSITE:" "")) = true
       then some (pyStrip (pyReplace (pyStrip line) "WEBSITE:" ""))
       else ci.personal_site) := by
  simp only [parse_line]
  rw [if_neg (by rw [h1]; exact Bool.false_ne_true),
    if_neg (by rw [h2]; exact Bool.false_ne_true),
    if_neg (by rw [h3]; exact Bool.false_ne_true),
    if_neg (by rw [h4]; exact Bool.false_ne_true), if_pos h5, if_pos ⟨h6, h7⟩]
  split_ifs with hw hp hp
  · rfl
  · rfl
  · rfl
  · rfl

/-! ## Email validation used by both oracle implementations -/

theorem regex_social_step_emails (env : Env) (content platform : String) (ci : ContactInfo) :
    (regex_social_step env content platform ci).emails = ci.emails := by
  unfold regex_social_step
  cases env.social_matches platform content with
  | nil => rfl
  | cons m ms => split_ifs <;> rfl

theorem mem_regex_extract (env : Env) (content : String) (ci : ContactInfo) (e : String) :
    e ∈ (regex_extract env content ci).emails ↔
      e ∈ ci.emails ∨ (e ∈ env.email_matches content ∧ is_valid_email e = true) := by
  unfold regex_extract
  rw [regex_social_step_emails, regex_social_step_emails, regex_social_step_emails]
  exact mem_add_valid_emails _ _ _

theorem parse_line_emails_valid (depth : Nat) (src : String) (acc : ContactInfo × List String)
    (line : String) :
    ∀ e ∈ (parse_line depth src acc line).1.emails,
      e ∈ acc.1.emails ∨ is_valid_email e = true := by
  simp only [parse_line]
  split_ifs <;> intro e he <;>
    first
      | exact Or.inl he
      | (rcases (mem_add_valid_emails _ _ _).mp he with h | h
         · exact Or.inl h
         · exact Or.inr h.2)

theorem parse_fold_emails_valid (lines : List String) (depth : Nat) (src : String)
    (acc : ContactInfo × List String) :
    ∀ e ∈ (lines.foldl (parse_line depth src) acc).1.emails,
      e ∈ acc.1.emails ∨ is_valid_email e = true := by
  induction lines generalizing acc with
  | nil => exact fun e he => Or.inl he
  | cons x xs ih =>
    intro e he
    rw [List.foldl_cons] at he
    rcases ih (parse_line depth src acc x) e he with h | h
    · exact parse_line_emails_valid depth src acc x e h
    · exact Or.inr h

theorem parse_llm_emails_valid (cfg : ContactExtractionConfig) (response : String)
    (depth : Nat) (src : String) (ci : ContactInfo) :
    ∀ e ∈ (parse_llm_response cfg response depth src ci).1.emails,
      e ∈ ci.emails ∨ is_valid_email e = true := by
  simp only [parse_llm_response]
  exact parse_fold_emails_valid (pySplit response '\n') depth src (ci, [])

/-! ## The scorer -/

theorem calculate_contact_score_closed (ci : ContactInfo) :
    calculate_contact_score ci =
      min ((if ci.emails ≠ [] then (0.4 : ℚ) else 0) +
        (if ci.emails.length > 1 then (0.1 : ℚ) else 0) +
        (if ci.linkedin.isSome then (0.1 : ℚ) else 0) +
        (if ci.twitter.isSome then (0.1 : ℚ) else 0) +
        (if ci.social_links.length > 2 then (0.1 : ℚ) else 0) +
        (if ci.personal_site.isSome then (0.2 : ℚ) else 0) +
        (if ci.phone.isSome then (0.1 : ℚ) else 0)) 1 := by
  unfold calculate_contact_score
  split_ifs <;>
    first
      | (norm_num; done)
      | (exfalso
         have h0 : ci.emails = [] := not_not.mp (by assumption)
         have h1 : ci.emails.length > 1 := by assumption
         rw [h0] at h1
         simp at h1)

theorem calculate_contact_score_bounds (ci : ContactInfo) :
    0 ≤ calculate_contact_score ci ∧ calculate_contact_score ci ≤ 1 := by
  rw [calculate_contact_score_closed]
  constructor
  · refine le_min ?_ zero_le_one
    have h : ∀ (c : Prop) [Decidable c] (q : ℚ), 0 ≤ q → 0 ≤ (if c then q else 0) := by
      intro c _ q hq
      split_ifs
      · exact hq
      · exact le_refl 0
    refine add_nonneg (add_nonneg (add_nonneg (add_nonneg (add_nonneg (add_nonneg
      (h _ _ ?_) (h _ _ ?_)) (h _ _ ?_)) (h _ _ ?_)) (h _ _ ?_)) (h _ _ ?_)) (h _ _ ?_) <;>
      norm_num
  · exact min_le_right _ _

/-! ## The link policy -/

theorem is_safe_of_denylisted (url parent_url : String)
    (h : skip_patterns.any (fun pattern => strContains (pyLower url) pattern) = true) :
    is_safe_drill_down_link url parent_url = false := by
  simp only [is_safe_drill_down_link]
  rw [if_pos h]

theorem is_safe_of_distinct (url parent_url : String)
    (h : skip_patterns.any (fun pattern => strContains (pyLower url) pattern) = false)
    (hne : url ≠ parent_url) :
    is_safe_drill_down_link url parent_url = true := by
  simp only [is_safe_drill_down_link]
  rw [if_neg (by rw [h]; exact Bool.false_ne_true)]
  simp [hne]

theorem is_safe_of_good (url parent_url : String)
    (h : skip_patterns.any (fun pattern => strContains (pyLower url) pattern) = false)
    (hg : good_patterns.any (fun pattern => strContains (pyLower url) pattern) = true) :
    is_safe_drill_down_link url parent_url = true := by
  simp only [is_safe_drill_down_link]
  rw [if_neg (by rw [h]; exact Bool.false_ne_true)]
  simp [hg]

theorem is_safe_of_equal_not_good (url parent_url : String)
    (h : skip_patterns.any (fun pattern => strContains (pyLower url) pattern) = false)
    (hg : good_patterns.any (fun pattern => strContains (pyLower url) pattern) = false)
    (heq : url = parent_url) :
    is_safe_drill_down_link url parent_url = false := by
  subst heq
  simp only [is_safe_drill_down_link]
  rw [if_neg (by rw [h]; exact Bool.false_ne_true)]
  simp [hg]

theorem filter_candidate_links_sublist (candidates : List String) (src : String) :
    (filter_candidate_links candidates src).Sublist candidates :=
  List.filter_sublist candidates

theorem mem_filter_candidate_links (candidates : List String) (src : String) (l : String) :
    l ∈ filter_candidate_links candidates src ↔
      l ∈ candidates ∧ pyStartswith l "http" = true ∧ is_safe_drill_down_link l src = true := by
  simp only [filter_candidate_links, List.mem_filter, Bool.and_eq_true]

/-! ## The claims -/

set_option maxRecDepth 200000 in
/-- C1: with the shipped defaults (`max_drilling_depth = 2`,
`max_links_per_level[1] = 3`) and an oracle proposing five policy-approved
candidate links at depth 0, the crawl fetches the seed at depth 0, then
exactly the first three of the five links (in the Link Policy's filtered
order) at depth 1, and nothing at depth 2; and in general the engine selects,
per page, at most `max_links_per_level.get(depth + 1, 2)` policy-approved
links, and every URL it fetches at `depth + 1` is a not-yet-visited member of
that selection. -/
theorem claim_c1 :
    ((perform_multi_level_extraction scenario_env default_config ["https://seed.com/"]
        empty_contact).trace =
      [("https://seed.com/", 0), ("https://ex1.com/a", 1), ("https://ex2.com/b", 1),
       ("https://ex3.com/c", 1)] ∧
     filter_candidate_links
        ((pySplit (pyStrip (pyReplace (pyStrip scenario_response_0) "NEXT_LINKS:" "")) ',').map
          pyStrip) "https://seed.com/" =
       ["https://ex1.com/a", "https://ex2.com/b", "https://ex3.com/c", "https://ex4.com/d",
        "https://ex5.com/e"]) ∧
    (∀ (env : Env) (cfg : ContactExtractionConfig) (content src : String) (depth : Nat)
        (ci : ContactInfo),
      (extract_from_content env cfg content src depth ci).2.length ≤
        (List.lookup (depth + 1) cfg.max_links_per_level).getD 2) ∧
    (∀ (env : Env) (cfg : ContactExtractionConfig) (content src : String) (depth : Nat)
        (ci : ContactInfo) (l : String),
      l ∈ (extract_from_content env cfg content src depth ci).2 →
        pyStartswith l "http" = true ∧ is_safe_drill_down_link l src = true) ∧
    (∀ (env : Env) (cfg : ContactExtractionConfig) (fuel depth : Nat) (links : List String)
        (st : CrawlState),
      ∃ dt, (drill_links env cfg fuel depth links st).trace = st.trace ++ dt ∧
        (dt.filter (fun p => p.2 = depth + 1)).length ≤ links.length ∧
        ∀ p ∈ dt, p.2 = depth + 1 → p.1 ∈ links ∧ p.1 ∉ st.visited) := by
  refine ⟨⟨by decide, by decide⟩, extract_links_length, ?_, ?_⟩
  · exact fun env cfg content src depth ci l hl =>
      extract_links_prop env cfg content src depth ci l hl
  · intro env cfg fuel depth links st
    obtain ⟨_, dv, dt, _, ht, _, _, _, _, hc, he, _⟩ := drill_master fuel env cfg depth links st
    exact ⟨dt, ht, hc, he⟩

set_option maxRecDepth 200000 in
/-- Witness for C1: the policy-approved selection of the scenario contains
`https://ex1.com/a`, which indeed starts with `http` and passes the link
policy against the seed. -/
theorem claim_c1_witness :
    pyStartswith "https://ex1.com/a" "http" = true ∧
      is_safe_drill_down_link "https://ex1.com/a" "https://seed.com/" = true :=
  claim_c1.2.2.1 scenario_env default_config scenario_content "https://seed.com/" 0 empty_contact
    "https://ex1.com/a" (by decide)

/-- C2: in every crawl each URL is fetched at most once — the list of fetch
attempts has no duplicate URL, the visited set has no duplicates, and the
fetched URLs are exactly the visited set (checked and inserted before each
fetch). -/
theorem claim_c2 (env : Env) (cfg : ContactExtractionConfig) (urls : List String)
    (ci : ContactInfo) :
    ((perform_multi_level_extraction env cfg urls ci).trace.map Prod.fst).Nodup ∧
    (perform_multi_level_extraction env cfg urls ci).visited.Nodup ∧
    (perform_multi_level_extraction env cfg urls ci).trace.map Prod.fst =
      (perform_multi_level_extraction env cfg urls ci).visited := by
  obtain ⟨h1, h2⟩ := perform_traceInv env cfg urls ci
  exact ⟨by rw [h1]; exact h2, h2, h1⟩

set_option maxRecDepth 200000 in
/-- Counterexample for C3: a crawl from nine distinct seed URLs (every fetch
failing) visits nine URLs, exceeding the claimed crawl-wide bound
`1 + max_links_per_level[0] + max_links_per_level[1] = 8` of the shipped
configuration, so the bound does not hold regardless of the number of
seeds. -/
theorem claim_c3_counterexample :
    ¬ ((perform_multi_level_extraction dead_fetch_env default_config nine_seeds
        empty_contact).visited.length ≤
      1 + (((List.lookup 0 default_config.max_links_per_level).getD 2) +
        ((List.lookup 1 default_config.max_links_per_level).getD 2))) := by
  decide

/-- C3 (amended): the visited set is bounded per seed — a crawl visits at
most `(number of seed URLs) × branchBound cfg 0` URLs, where the branch bound
is one page plus the per-level budget times the bound one level deeper; in
particular a crawl from at most two seeds under the shipped defaults keeps
the originally claimed bound `1 + max_links_per_level[0] +
max_links_per_level[1] = 8`. -/
theorem claim_c3 :
    (∀ (env : Env) (cfg : ContactExtractionConfig) (urls : List String) (ci : ContactInfo),
      (perform_multi_level_extraction env cfg urls ci).visited.length ≤
        urls.length * branchBound cfg 0) ∧
    (∀ (env : Env) (urls : List String) (ci : ContactInfo),
      urls.length ≤ 2 →
        (perform_multi_level_extraction env default_config urls ci).visited.length ≤
          1 + (((List.lookup 0 default_config.max_links_per_level).getD 2) +
            ((List.lookup 1 default_config.max_links_per_level).getD 2))) := by
  refine ⟨perform_visited_bound, ?_⟩
  intro env urls ci h
  have h1 := perform_visited_bound env default_config urls ci
  have h2 : branchBound default_config 0 = 4 := by decide
  have h3 : (1 + (((List.lookup 0 default_config.max_links_per_level).getD 2) +
      ((List.lookup 1 default_config.max_links_per_level).getD 2))) = 8 := by decide
  rw [h2] at h1
  rw [h3]
  calc (perform_multi_level_extraction env default_config urls ci).visited.length
      ≤ urls.length * 4 := h1
    _ ≤ 2 * 4 := Nat.mul_le_mul_right 4 h
    _ ≤ 8 := by norm_num

set_option maxRecDepth 200000 in
/-- Witness for C3: a two-seed crawl stays within the original budget of 8. -/
theorem claim_c3_witness :
    (perform_multi_level_extraction dead_fetch_env default_config
        ["https://u1.com", "https://u2.com"] empty_contact).visited.length ≤
      1 + (((List.lookup 0 default_config.max_links_per_level).getD 2) +
        ((List.lookup 1 default_config.max_links_per_level).getD 2)) :=
  claim_c3.2 dead_fetch_env ["https://u1.com", "https://u2.com"] empty_contact (by decide)

/-- C4: the contact score equals the minimum of 1 and the sum of 0.4 for a
non-empty email set, 0.1 more for more than one distinct email, 0.1 (one
third of 0.3) for each of linkedin present, twitter present, and more than
two distinct social-link entries, 0.2 for a personal site and 0.1 for a
phone; consequently it lies in [0, 1] and depends on no other field. -/
theorem claim_c4 (ci : ContactInfo) (_hE : ci.emails.Nodup)
    (_hS : (ci.social_links.map Prod.fst).Nodup) :
    calculate_contact_score ci =
      min ((if ci.emails ≠ [] then (0.4 : ℚ) else 0) +
        (if ci.emails.length > 1 then (0.1 : ℚ) else 0) +
        (if ci.linkedin.isSome then (0.1 : ℚ) else 0) +
        (if ci.twitter.isSome then (0.1 : ℚ) else 0) +
        (if ci.social_links.length > 2 then (0.1 : ℚ) else 0) +
        (if ci.personal_site.isSome then (0.2 : ℚ) else 0) +
        (if ci.phone.isSome then (0.1 : ℚ) else 0)) 1 ∧
    0 ≤ calculate_contact_score ci ∧ calculate_contact_score ci ≤ 1 ∧
    (∀ ci' : ContactInfo,
      (ci.emails ≠ [] ↔ ci'.emails ≠ []) →
      (ci.emails.length > 1 ↔ ci'.emails.length > 1) →
      (ci.linkedin.isSome = true ↔ ci'.linkedin.isSome = true) →
      (ci.twitter.isSome = true ↔ ci'.twitter.isSome = true) →
      (ci.social_links.length > 2 ↔ ci'.social_links.length > 2) →
      (ci.personal_site.isSome = true ↔ ci'.personal_site.isSome = true) →
      (ci.phone.isSome = true ↔ ci'.phone.isSome = true) →
      calculate_contact_score ci = calculate_contact_score ci') := by
  refine ⟨calculate_contact_score_closed ci, (calculate_contact_score_bounds ci).1,
    (calculate_contact_score_bounds ci).2, ?_⟩
  intro ci' h1 h2 h3 h4 h5 h6 h7
  rw [calculate_contact_score_closed, calculate_contact_score_closed]
  have e3 : ci.linkedin.isSome ↔ ci'.linkedin.isSome := by
    constructor <;> intro h <;> simp_all
  have e4 : ci.twitter.isSome ↔ ci'.twitter.isSome := by
    constructor <;> intro h <;> simp_all
  have e6 : ci.personal_site.isSome ↔ ci'.personal_site.isSome := by
    constructor <;> intro h <;> simp_all
  have e7 : ci.phone.isSome ↔ ci'.phone.isSome := by
    constructor <;> intro h <;> simp_all
  rw [if_congr h1 rfl rfl, if_congr h2 rfl rfl, if_congr e3 rfl rfl, if_congr e4 rfl rfl,
    if_congr h5 rfl rfl, if_congr e6 rfl rfl, if_congr e7 rfl rfl]

/-- Witness for C4 at a concrete record with two distinct emails and a
phone: the score is well defined and bounded. -/
theorem claim_c4_witness :
    0 ≤ calculate_contact_score
        { empty_contact with emails := ["a@b.com", "c@d.io"], phone := some "+61 400 000" } ∧
      calculate_contact_score
        { empty_contact with emails := ["a@b.com", "c@d.io"], phone := some "+61 400 000" } ≤ 1 :=
  ⟨(claim_c4 { empty_contact with emails := ["a@b.com", "c@d.io"], phone := some "+61 400 000" }
      (by decide) (by decide)).2.1,
   (claim_c4 { empty_contact with emails := ["a@b.com", "c@d.io"], phone := some "+61 400 000" }
      (by decide) (by decide)).2.2.1⟩

set_option maxRecDepth 200000 in
/-- Counterexample for C5: a merge step receives the non-empty website value
`https://new-site.example/page` while `website` already holds
`https://old-site.example`; the field keeps its old value — `website` is not
overwritten by a non-empty new value. -/
theorem claim_c5_counterexample :
    (parse_llm_response default_config "WEBSITE: https://new-site.example/page" 0
        "https://src.example"
        { empty_contact with website := some "https://old-site.example" }).1.website =
      some "https://old-site.example" ∧
    ("https://old-site.example" : String) ≠ "https://new-site.example/page" := by
  constructor
  · decide
  · decide

/-- C5 (amended): across a whole crawl no field is ever deleted or cleared —
emails only grow, a truthy website is never replaced, the other singleton
fields and the social-link keys are never removed; and within one merge step
emails are merged by set union of the validated values, `linkedin`,
`twitter` and `phone` are overwritten whenever the supplied value is
non-empty (and http-shaped where required), `website` is set only when it is
currently blank, and `personal_site` is overwritten exactly when the
supplied website value looks personal (otherwise kept). -/
theorem claim_c5 :
    (∀ (env : Env) (cfg : ContactExtractionConfig) (urls : List String) (ci : ContactInfo),
      InfoMono ci (perform_multi_level_extraction env cfg urls ci).info) ∧
    (∀ (depth : Nat) (src : String) (ci : ContactInfo) (links : List String) (line : String),
      pyStartswith (pyStrip line) "EMAILS:" = true →
      pyStrip (pyReplace (pyStrip line) "EMAILS:" "") ≠ "" →
      pyStrip (pyReplace (pyStrip line) "EMAILS:" "") ≠ "None" →
      ∀ e, e ∈ (parse_line depth src (ci, links) line).1.emails ↔
        e ∈ ci.emails ∨
          (e ∈ (pySplit (pyStrip (pyReplace (pyStrip line) "EMAILS:" "")) ',').map pyStrip ∧
            is_valid_email e = true)) ∧
    (∀ (depth : Nat) (src : String) (ci : ContactInfo) (links : List String) (line : String),
      pyStartswith (pyStrip line) "EMAILS:" = false →
      pyStartswith (pyStrip line) "LINKEDIN:" = true →
      pyStrip (pyReplace (pyStrip line) "LINKEDIN:" "") ≠ "" →
      pyStartswith (pyStrip (pyReplace (pyStrip line) "LINKEDIN:" "")) "http" = true →
      (parse_line depth src (ci, links) line).1.linkedin =
        some (pyStrip (pyReplace (pyStrip line) "LINKEDIN:" "")) ∧
      List.lookup "linkedin" (parse_line depth src (ci, links) line).1.social_links =
        some (pyStrip (pyReplace (pyStrip line) "LINKEDIN:" ""))) ∧
    (∀ (depth : Nat) (src : String) (ci : ContactInfo) (links : List String) (line : String),
      pyStartswith (pyStrip line) "EMAILS:" = false →
      pyStartswith (pyStrip line) "LINKEDIN:" = false →
      pyStartswith (pyStrip line) "TWITTER:" = true →
      pyStrip (pyReplace (pyStrip line) "TWITTER:" "") ≠ "" →
      pyStartswith (pyStrip (pyReplace (pyStrip line) "TWITTER:" "")) "http" = true →
      (parse_line depth src (ci, links) line).1.twitter =
        some (pyStrip (pyReplace (pyStrip line) "TWITTER:" "")) ∧
      List.lookup "twitter" (parse_line depth src (ci, links) line).1.social_links =
        some (pyStrip (pyReplace (pyStrip line) "TWITTER:" ""))) ∧
    (∀ (depth : Nat) (src : String) (ci : ContactInfo) (links : List String) (line : String),
      pyStartswith (pyStrip line) "EMAILS:" = false →
      pyStartswith (pyStrip line) "LINKEDIN:" = false →
      pyStartswith (pyStrip line) "TWITTER:" = false →
      pyStartswith (pyStrip line) "PHONE:" = true →
      pyStrip (pyReplace (pyStrip line) "PHONE:" "") ≠ "" →
      pyStrip (pyReplace (pyStrip line) "PHONE:" "") ≠ "None" →
      (parse_line depth src (ci, links) line).1.phone =
        some (pyStrip (pyReplace (pyStrip line) "PHONE:" ""))) ∧
    (∀ (depth : Nat) (src : String) (ci : ContactInfo) (links : List String) (line : String),
      pyStartswith (pyStrip line) "EMAILS:" = false →
      pyStartswith (pyStrip line) "LINKEDIN:" = false →
      pyStartswith (pyStrip line) "TWITTER:" = false →
      pyStartswith (pyStrip line) "PHONE:" = false →
      pyStartswith (pyStrip line) "WEBSITE:" = true →
      pyStrip (pyReplace (pyStrip line) "WEBSITE:" "") ≠ "" →
      pyStartswith (pyStrip (pyReplace (pyStrip line) "WEBSITE:" "")) "http" = true →
      (parse_line depth src (ci, links) line).1.website =
        (if optTruthy ci.website = true then ci.website
         else some (pyStrip (pyReplace (pyStrip line) "WEBSITE:" ""))) ∧
      (parse_line depth src (ci, links) line).1.personal_site =
        (if is_personal_site (pyStrip (pyReplace (pyStrip line) "WEBSITE:" "")) = true
         then some (pyStrip (pyReplace (pyStrip line) "WEBSITE:" ""))
         else ci.personal_site)) :=
  ⟨perform_infoMono,
   fun depth src ci links line h1 h2 h3 =>
     parse_line_emails_branch depth src ci links line h1 h2 h3,
   fun depth src ci links line h1 h2 h3 h4 =>
     parse_line_linkedin_branch depth src ci links line h1 h2 h3 h4,
   fun depth src ci links line h1 h2 h3 h4 h5 =>
     parse_line_twitter_branch depth src ci links line h1 h2 h3 h4 h5,
   fun depth src ci links line h1 h2 h3 h4 h5 h6 =>
     parse_line_phone_branch depth src ci links line h1 h2 h3 h4 h5 h6,
   fun depth src ci links line h1 h2 h3 h4 h5 h6 h7 =>
     ⟨parse_line_website_branch depth src ci links line h1 h2 h3 h4 h5 h6 h7,
      parse_line_personal_site_branch depth src ci links line h1 h2 h3 h4 h5 h6 h7⟩⟩

set_option maxRecDepth 200000 in
/-- Witness for C5: a `LINKEDIN:` line with a non-empty http value overwrites
an already-set linkedin field. -/
theorem claim_c5_witness :
    (parse_line 0 "https://s.example"
        ({ empty_contact with linkedin := some "https://linkedin.com/in/old" }, [])
        "LINKEDIN: https://linkedin.com/in/jane").1.linkedin =
      some (pyStrip (pyReplace (pyStrip "LINKEDIN: https://linkedin.com/in/jane")
        "LINKEDIN:" "")) :=
  (claim_c5.2.2.1 0 "https://s.example"
    { empty_contact with linkedin := some "https://linkedin.com/in/old" } []
    "LINKEDIN: https://linkedin.com/in/jane" (by decide) (by decide) (by decide) (by decide)).1

/-- Counterexample for C6: `https://example.com/home` matches no denylist
pattern, yet the policy rejects it when it equals the source URL — so the
policy does not reject exactly the denylisted URLs. -/
theorem claim_c6_counterexample :
    is_safe_drill_down_link "https://example.com/home" "https://example.com/home" = false ∧
    skip_patterns.any (fun pattern =>
      strContains (pyLower "https://example.com/home") pattern) = false := by
  constructor
  · decide
  · decide

/-- C6 (amended): the Link Policy rejects every denylisted URL; it passes
every URL that is not denylisted and differs from the source URL, and also a
non-denylisted URL equal to the source when it matches a contact-relevant
pattern; it rejects a non-denylisted URL equal to its own source URL whenever
it matches no contact-relevant pattern (so rejection is
denylist-or-(equal-to-source-without-good-pattern), not exactly the
denylist); and it only filters — the survivors are a sublist of the input, in
input order, characterized by membership. -/
theorem claim_c6 :
    (∀ url parent_url : String,
      skip_patterns.any (fun pattern => strContains (pyLower url) pattern) = true →
        is_safe_drill_down_link url parent_url = false) ∧
    (∀ url parent_url : String,
      skip_patterns.any (fun pattern => strContains (pyLower url) pattern) = false →
        url ≠ parent_url → is_safe_drill_down_link url parent_url = true) ∧
    (∀ url parent_url : String,
      skip_patterns.any (fun pattern => strContains (pyLower url) pattern) = false →
        good_patterns.any (fun pattern => strContains (pyLower url) pattern) = true →
        is_safe_drill_down_link url parent_url = true) ∧
    (∀ url parent_url : String,
      skip_patterns.any (fun pattern => strContains (pyLower url) pattern) = false →
        good_patterns.any (fun pattern => strContains (pyLower url) pattern) = false →
        url = parent_url → is_safe_drill_down_link url parent_url = false) ∧
    (∀ (candidates : List String) (src : String),
      (filter_candidate_links candidates src).Sublist candidates ∧
      ∀ l, l ∈ filter_candidate_links candidates src ↔
        l ∈ candidates ∧ pyStartswith l "http" = true ∧
          is_safe_drill_down_link l src = true) :=
  ⟨is_safe_of_denylisted, is_safe_of_distinct, is_safe_of_good, is_safe_of_equal_not_good,
   fun candidates src =>
     ⟨filter_candidate_links_sublist candidates src,
      fun l => mem_filter_candidate_links candidates src l⟩⟩

/-- Witness for C6: a topics page is rejected, a distinct personal page is
accepted, a contact page equal to its own source is still accepted, and a
plain page equal to its own source is rejected. -/
theorem claim_c6_witness :
    is_safe_drill_down_link "https://github.com/topics/ml" "https://s.example" = false ∧
    is_safe_drill_down_link "https://jane.dev/x" "https://s.example" = true ∧
    is_safe_drill_down_link "https://jane.dev/contact" "https://jane.dev/contact" = true ∧
    is_safe_drill_down_link "https://example.org/page" "https://example.org/page" = false :=
  ⟨claim_c6.1 "https://github.com/topics/ml" "https://s.example" (by decide),
   claim_c6.2.1 "https://jane.dev/x" "https://s.example" (by decide) (by decide),
   claim_c6.2.2.1 "https://jane.dev/contact" "https://jane.dev/contact" (by decide) (by decide),
   claim_c6.2.2.2.1 "https://example.org/page" "https://example.org/page" (by decide) (by decide)
     rfl⟩

/-- C7: when the chat-service call for a page fails, the engine silently
applies the deterministic regex extractor to that single page (returning no
follow-up links), and a crawl whose oracle always fails still terminates
having fetched only the depth-0 seeds, returning a contact record. -/
theorem claim_c7 :
    (∀ (env : Env) (cfg : ContactExtractionConfig) (content src : String) (depth : Nat)
        (ci : ContactInfo),
      env.chat (prompt_for_depth (truncate_content content) src depth) = none →
        intelligent_extract env cfg content src depth ci =
          (regex_extract env (truncate_content content) ci, [])) ∧
    (∀ (env : Env) (cfg : ContactExtractionConfig) (urls : List String) (ci : ContactInfo),
      (∀ s, env.chat s = none) →
        ∀ p ∈ (perform_multi_level_extraction env cfg urls ci).trace, p.2 = 0) :=
  ⟨fun env cfg content src depth ci hc => intelligent_fallback env cfg content src depth ci hc,
   fun env cfg urls ci hc => perform_dead_chat env cfg urls ci hc⟩

set_option maxRecDepth 200000 in
/-- Witness for C7: with a chat service that always raises, the level-0 page
falls back to regex extraction and the one-seed crawl only ever fetches at
depth 0. -/
theorem claim_c7_witness :
    intelligent_extract dead_chat_env default_config scenario_content "https://seed.com/" 0
        empty_contact =
      (regex_extract dead_chat_env (truncate_content scenario_content) empty_contact, []) ∧
    ∀ p ∈ (perform_multi_level_extraction dead_chat_env default_config ["https://seed.com/"]
        empty_contact).trace, p.2 = 0 :=
  ⟨claim_c7.1 dead_chat_env default_config scenario_content "https://seed.com/" 0 empty_contact
      rfl,
   claim_c7.2 dead_chat_env default_config ["https://seed.com/"] empty_contact (fun _ => rfl)⟩

/-- C8: both oracle implementations apply the same `_is_valid_email` filter:
`git@github.com` and `noreply@github.com` are rejected; the regex path adds
exactly the valid matches (an invalid match is dropped individually, the rest
kept); every email the LLM path adds passed the filter; and a text whose only
email-shaped strings are the two placeholder addresses contributes no email
at all. -/
theorem claim_c8 :
    (is_valid_email "git@github.com" = false ∧ is_valid_email "noreply@github.com" = false) ∧
    (∀ (env : Env) (content : String) (ci : ContactInfo) (e : String),
      e ∈ (regex_extract env content ci).emails ↔
        e ∈ ci.emails ∨ (e ∈ env.email_matches content ∧ is_valid_email e = true)) ∧
    (∀ (cfg : ContactExtractionConfig) (response : String) (depth : Nat) (src : String)
        (ci : ContactInfo) (e : String),
      e ∈ (parse_llm_response cfg response depth src ci).1.emails →
        e ∈ ci.emails ∨ is_valid_email e = true) ∧
    (∀ (env : Env) (content : String) (ci : ContactInfo),
      (∀ e ∈ env.email_matches content, e = "git@github.com" ∨ e = "noreply@github.com") →
        ∀ e, e ∈ (regex_extract env content ci).emails → e ∈ ci.emails) := by
  refine ⟨⟨by decide, by decide⟩, mem_regex_extract, ?_, ?_⟩
  · exact fun cfg response depth src ci e he =>
      parse_llm_emails_valid cfg response depth src ci e he
  · intro env content ci hm e he
    rcases (mem_regex_extract env content ci e).mp he with h | ⟨h1, h2⟩
    · exact h
    · rcases hm e h1 with rfl | rfl
      · exact absurd h2 (by decide)
      · exact absurd h2 (by decide)

set_option maxRecDepth 200000 in
/-- Witness for C8: a real address parsed from an `EMAILS:` line passed the
filter, and a page whose only email-shaped strings are the two placeholder
addresses contributes no email to an empty record. -/
theorem claim_c8_witness :
    ("real@person.com" ∈ empty_contact.emails ∨ is_valid_email "real@person.com" = true) ∧
    (∀ e, e ∈ (regex_extract fake_only_env "page" empty_contact).emails →
      e ∈ empty_contact.emails) :=
  ⟨claim_c8.2.2.1 default_config "EMAILS: real@person.com" 0 "https://s.example" empty_contact
      "real@person.com" (by decide),
   claim_c8.2.2.2 fake_only_env "page" empty_contact (by decide)⟩

/-- C9: the shipped content fetcher returns `None` for every URL — even with
a Jina token configured and a healthy HTTP layer, the guarded block reads the
missing `request_timeout` attribute (the dataclass field is `timeout`), the
handler returns `None` — and consequently a crawl whose fetcher always
returns `None` leaves the contact record unchanged and never fetches past
depth 0 (no drilling ever occurs). -/
theorem claim_c9 :
    (∀ (henv : HttpEnv) (jina_token : Option String) (url : String),
      scrape_url henv jina_token url = none) ∧
    (∀ (env : Env) (cfg : ContactExtractionConfig) (urls : List String) (ci : ContactInfo),
      (∀ u, env.fetch u = none) →
        (perform_multi_level_extraction env cfg urls ci).info = ci ∧
        ∀ p ∈ (perform_multi_level_extraction env cfg urls ci).trace, p.2 = 0) := by
  constructor
  · intro henv jina_token url
    unfold scrape_url
    split_ifs with h1 h2
    · exact absurd h2 (by decide)
    · rfl
    · rfl
  · exact fun env cfg urls ci hf => perform_dead_fetch env cfg urls ci hf

/-- Witness for C9: wiring the shipped `_scrape_url` in as the fetcher (with
a token configured and HTTP answering 200), a nine-seed crawl extracts
nothing and never drills. -/
theorem claim_c9_witness :
    (perform_multi_level_extraction shipped_fetch_env default_config nine_seeds
        empty_contact).info = empty_contact ∧
    ∀ p ∈ (perform_multi_level_extraction shipped_fetch_env default_config nine_seeds
        empty_contact).trace, p.2 = 0 :=
  claim_c9.2 shipped_fetch_env default_config nine_seeds empty_contact
    (fun u => claim_c9.1 { get := fun _ => some (200, "page body") } (some "jina-abcdefgh") u)

/-- C10: the `enable_fake_email_filtering` flag is never consulted — two
crawls whose configurations differ only in that flag produce identical
results (state, visited set and fetch trace) on every input. -/
theorem claim_c10 (env : Env) (d t : Nat) (l : List (Nat × Nat)) (b₁ b₂ : Bool)
    (urls : List String) (ci : ContactInfo) :
    perform_multi_level_extraction env
        { max_drilling_depth := d, timeout := t, max_links_per_level := l,
          enable_fake_email_filtering := b₁ } urls ci =
      perform_multi_level_extraction env
        { max_drilling_depth := d, timeout := t, max_links_per_level := l,
          enable_fake_email_filtering := b₂ } urls ci :=
  perform_config_flag env d t l b₁ b₂ urls ci
